import Mathlib

/-!
Verification of the node-handler collection (image / video / AI tool handlers).

Each Python handler module exposes `process(inputs, config)` returning a result
dictionary `{status, outputs|error}`.  We shallowly embed each handler body:

* Python dict values become `Value` (None / str / float-int as ℚ / list / tuple).
* `inputs` / `config` dictionaries become association lists `Dict`.
* The filesystem is the set of existing paths, `St := List String`.
* External collaborators (PIL, moviepy, rembg, lama-cleaner, HTTP APIs, the
  Python `float`/`int` string parsers, `uuid.uuid4`) are oracle fields of `Env`.
* Python exceptions are `Except String`; each `process` wraps its whole body in
  `try/except Exception`, which we model by `runProc` catching the body.
* Delegate invocations are logged in a `Call` trace, so "the external library
  was never invoked" is expressible.

Exceptions inside every body are raised only before any file is written (all
writes happen through terminal oracle steps that either succeed atomically or
raise), so the catch-all branch of `runProc` correctly keeps the initial
filesystem state.
-/

/-- A Python runtime value as it appears in `inputs` / `config` dictionaries.
Numbers (int and float) are modelled exactly as rationals. -/
inductive Value where
  | none : Value
  | str (s : String) : Value
  | num (q : Rat) : Value
  | list (l : List Value) : Value
  | pair (x y : Int) : Value

/-- Python truthiness for the values we model (`bool(v)`). -/
def truthy : Value → Bool
  | Value.none => false
  | Value.str s => s ≠ ""
  | Value.num q => q ≠ 0
  | Value.list l => !l.isEmpty
  | Value.pair _ _ => true

/-- A Python dictionary with string keys. -/
def Dict := List (String × Value)

/-- Model of `d.get(k)` — `None` when the key is absent. -/
def Dict.get (d : Dict) (k : String) : Value :=
  match d.find? (fun kv => kv.1 == k) with
  | some kv => kv.2
  | Option.none => Value.none

/-- Model of `d.get(k, dflt)` — the default only when the key is absent. -/
def Dict.getD (d : Dict) (k : String) (dflt : Value) : Value :=
  match d.find? (fun kv => kv.1 == k) with
  | some kv => kv.2
  | Option.none => dflt

/-- Model of `d[k] = v` (new binding shadows any old one for lookups). -/
def Dict.set (d : Dict) (k : String) (v : Value) : Dict := (k, v) :: d

/-- The idiom `inputs.get(key) or config.get(key)` used by the handlers:
the `inputs` value wins exactly when it is truthy. -/
def resolve (inputs config : Dict) (k : String) : Value :=
  if truthy (Dict.get inputs k) then Dict.get inputs k else Dict.get config k

/-- Filesystem state: the set of paths of existing files. -/
def St := List String

/-- Model of `os.path.exists` on our filesystem state. -/
def pathExists (st : St) (p : String) : Bool := List.contains st p

/-- Record of one external-library / service invocation (the call trace lets
us state that a delegate was or was not reached). -/
structure Call where
  fn : String
  arg : String
  a : Rat
  b : Rat
  n : Nat
deriving DecidableEq

/-- The uniform result envelope each handler returns. -/
structure Result where
  status : String
  outputs : Option Dict
  error : Option String

/-- Model of `{"status": "error", "error": e}` -/
def Result.mkError (e : String) : Result := ⟨"error", Option.none, some e⟩

/-- Model of `{"status": "success", "outputs": o}` -/
def Result.mkSuccess (o : Dict) : Result := ⟨"success", some o, Option.none⟩

/-- What one `process` call produces: the envelope, the filesystem afterwards,
and the trace of external calls made. -/
structure ProcOut where
  result : Result
  st : St
  calls : List Call

/-- The `try: ... except Exception as e: return {"status": "error", ...}`
wrapper shared by every handler: a raised exception becomes the error
envelope.  Bodies raise only before writing, so the state is the initial one
on that path. -/
def runProc (st : St) (body : Except String (Result × St × List Call)) : ProcOut :=
  match body with
  | Except.ok (r, st', cs) => ⟨r, st', cs⟩
  | Except.error e => ⟨Result.mkError ("Error processing node: " ++ e), st, []⟩

/- ### String helpers (kernel-evaluable stand-ins for Python str methods) -/

/-- One replacement pass with explicit fuel (Python `str.replace` for a
non-empty pattern); fuel `= l.length` always suffices. -/
def replFuel (pat rep : List Char) : Nat → List Char → List Char
  | 0, l => l
  | n + 1, l =>
    match l with
    | [] => []
    | c :: cs =>
      if pat ≠ [] ∧ pat.isPrefixOf (c :: cs) then
        rep ++ replFuel pat rep n (List.drop pat.length (c :: cs))
      else
        c :: replFuel pat rep n cs

/-- Python `s.replace(pat, rep)` (pattern assumed non-empty, as in the source). -/
def pyReplace (s pat rep : String) : String :=
  String.mk (replFuel pat.data rep.data s.data.length s.data)

/-- Substring occurrence test on character lists. -/
def containsAux (pat : List Char) : List Char → Bool
  | [] => pat.isEmpty
  | c :: cs => pat.isPrefixOf (c :: cs) || containsAux pat cs

/-- Python `pat in s` (substring test). -/
def containsSub (s pat : String) : Bool := containsAux pat.data s.data

/-- Python `s.strip(chars)`. -/
def pyStrip (s chars : String) : String :=
  String.mk
    (((s.data.dropWhile (fun c => chars.data.contains c)).reverse.dropWhile
        (fun c => chars.data.contains c)).reverse)

/-- Split a character list on a separator character. -/
def splitOnChar (sep : Char) : List Char → List (List Char)
  | [] => [[]]
  | c :: cs =>
    let rest := splitOnChar sep cs
    if c = sep then [] :: rest
    else
      match rest with
      | [] => [[c]]
      | g :: gs => (c :: g) :: gs

/-- Python `s.split(sep)` for a one-character separator. -/
def pySplit (s : String) (sep : Char) : List String :=
  (splitOnChar sep s.data).map String.mk

/-- ASCII lowercase of one character (`str.lower` on the path alphabet). -/
def charLower (c : Char) : Char :=
  if 'A' ≤ c ∧ c ≤ 'Z' then Char.ofNat (c.toNat + 32) else c

/-- Python `s.lower()` (ASCII, which is all the extension checks compare). -/
def strLower (s : String) : String := String.mk (s.data.map charLower)

/-- Python `s.lower().endswith(ext)`. -/
def lowerEndsWith (s ext : String) : Bool :=
  List.isSuffixOf ext.data (strLower s).data

/-- Model of `pathlib.Path(p).suffix`: the final extension of the last path component,
empty for names without a dot or hidden files like `.bashrc`. -/
def pathSuffix (p : String) : String :=
  let base := (pySplit p '/').getLastD ""
  let parts := pySplit base '.'
  match parts with
  | [] => ""
  | [_] => ""
  | first :: rest =>
    if first = "" ∧ rest.length = 1 then ""
    else
      match rest.getLastD "" with
      | "" => ""
      | ext => "." ++ ext

/-- The image extension allow-list `(".jpg", ".jpeg", ".png", ".bmp", ".gif", ".tiff")`. -/
def hasImageExt (p : String) : Bool :=
  lowerEndsWith p ".jpg" ∨ lowerEndsWith p ".jpeg" ∨ lowerEndsWith p ".png" ∨
    lowerEndsWith p ".bmp" ∨ lowerEndsWith p ".gif" ∨ lowerEndsWith p ".tiff"

/-- The video extension allow-list `(".mp4", ".avi", ".mov", ".mkv")`. -/
def hasVideoExt (p : String) : Bool :=
  lowerEndsWith p ".mp4" ∨ lowerEndsWith p ".avi" ∨ lowerEndsWith p ".mov" ∨
    lowerEndsWith p ".mkv"

/-- The audio extension allow-list `(".mp3", ".wav", ".aac", ".ogg", ".m4a")`. -/
def hasAudioExt (p : String) : Bool :=
  lowerEndsWith p ".mp3" ∨ lowerEndsWith p ".wav" ∨ lowerEndsWith p ".aac" ∨
    lowerEndsWith p ".ogg" ∨ lowerEndsWith p ".m4a"

/-- Python `str(v)` restricted to what reaches f-strings in the handlers
(numeral rendering is Lean's, which is irrelevant to every claim). -/
def vToString : Value → String
  | Value.none => "None"
  | Value.str s => s
  | Value.num q => toString q
  | Value.list _ => "[...]"
  | Value.pair x y => "(" ++ toString x ++ ", " ++ toString y ++ ")"

/-- A loaded video clip as far as the handlers inspect it. -/
structure Video where
  duration : Rat

/-- External collaborators and runtime primitives, as black-box oracles.
Each `Bool × Bool` delegate returns (helper return value, whether the output
file was written); helpers catch their own exceptions and return `False`,
matching the source.  `Except String` oracles model inline external calls
that may raise into the handler's own try/except. -/
structure Env where
  /-- Model of `float(s)` on a string: `some` iff Python parses it. -/
  parseFloat : String → Option Rat
  /-- Model of `int(s)` on a string: `some` iff Python parses it. -/
  parseIntStr : String → Option Int
  /-- Model of `uuid.uuid4()` rendered as a string. -/
  uuid : String
  /-- Model of `os.getenv(name, "")`. -/
  osGetEnv : String → String
  /-- Model of `EffectImageHandler.apply_effect(image_path, output_path, effect, intensity)`. -/
  applyEffect : String → String → Value → Rat → Bool × Bool
  /-- Model of `ResizeImageHandler.resize_image(image_path, output_path, width, height)`. -/
  resizeImage : String → String → Int → Int → Bool × Bool
  /-- Model of `TextOverlayImageHandler.overlay_text(image_path, output_path, text,
  font_size, font_name, color, position, offset, bg_color, opacity)`. -/
  overlayText : String → String → Value → Int → Value → Value → Value → Value → Value → Rat → Bool × Bool
  /-- Model of `LogoOverlayImageHandler.overlay_logo(image_path, logo_path, output_path,
  position, offset, logo_scale, opacity)`. -/
  overlayLogo : String → String → String → Value → Value → Rat → Rat → Bool × Bool
  /-- Model of `VideoFileClip(path)` inside `trim_video` (`none` = raised, caught there). -/
  trimLoad : String → Option Video
  /-- Model of `subclip(start, end)` + `write_videofile` inside `trim_video`:
  `true` iff the write succeeded (and then the output file exists). -/
  trimWrite : String → String → Rat → Rat → Bool
  /-- Model of `VideoFileClip(path)` inside `add_watermark`. -/
  wmLoad : String → Option Video
  /-- Watermark/subtitle composition and `write_videofile` inside
  `add_watermark`: args are video path, output path, watermark text,
  number of subtitles, start time, effective end time. -/
  wmCompose : String → String → Value → Nat → Rat → Rat → Bool
  /-- Model of `json.loads` specialised to the subtitle payload (`none` = parse error). -/
  jsonParse : String → Option (List Value)
  /-- Model of `MergeHandler.merge_videos(video_paths, output_path)`. -/
  mergeVideos : List String → String → Bool × Bool
  /-- Model of `AddBGMHandler.add_bgm(video_path, music_path, output_path, music_volume, video_volume)`. -/
  addBgm : String → String → String → Rat → Rat → Bool × Bool
  /-- Model of `PIL.Image.open(path)` (and `convert`), raising on failure. -/
  imageOpen : String → Except String Unit
  /-- Model of `rembg.remove(image)`, keyed by the source path. -/
  rembgRemove : String → Except String Unit
  /-- Model of `image.save(output_path)`: on success the file exists. -/
  saveImage : String → Except String Unit
  /-- Model of `ModelManager(name="lama", ...)` applied to image and mask. -/
  inpaintRun : String → String → Except String Unit
  /-- Model of `open(path, "rb").read()`. -/
  readFileBytes : String → Except String Unit
  /-- The Gemini caption request for an image path: returns
  (status_code, response_text, extracted caption or ""). -/
  captionApi : String → Except String (Int × String × String)
  /-- Model of `openai.Image.create(prompt=...)` returning the image URL. -/
  openaiCreate : Value → Except String String
  /-- Model of `requests.get(url)` for the generated image bytes. -/
  httpGet : String → Except String Unit
  /-- Model of `open(output_path, "wb").write(...)`: on success the file exists. -/
  writeBytes : String → Except String Unit

/-- Python `float(v)` over our values. -/
def pyFloat (env : Env) : Value → Except String Rat
  | Value.num q => Except.ok q
  | Value.str s =>
    match env.parseFloat s with
    | some q => Except.ok q
    | Option.none => Except.error ("could not convert string to float: " ++ s)
  | Value.none => Except.error "float() argument must be a string or a real number, not NoneType"
  | _ => Except.error "float() argument must be a string or a real number"

/-- Python `int(v)` over our values (truncation toward zero on floats). -/
def pyInt (env : Env) : Value → Except String Int
  | Value.num q => Except.ok (if 0 ≤ q then q.floor else q.ceil)
  | Value.str s =>
    match env.parseIntStr s with
    | some i => Except.ok i
    | Option.none => Except.error ("invalid literal for int() with base 10: " ++ s)
  | Value.none => Except.error "int() argument must be a string or a number, not NoneType"
  | _ => Except.error "int() argument must be a string or a number"

/-- Model of `os.path.exists(v)` demands a path-like argument; the handlers reach it
only with truthy values, and non-string values raise `TypeError`. -/
def asPath : Value → Except String String
  | Value.str s => Except.ok s
  | _ => Except.error "argument should be a str or an os.PathLike object"

/-- Model of `int`-parse every piece of a split offset string (`tuple(map(int, ...))`). -/
def intsAll (env : Env) : List String → Except String (List Int)
  | [] => Except.ok []
  | s :: rest =>
    match env.parseIntStr s with
    | Option.none => Except.error ("invalid literal for int() with base 10: " ++ s)
    | some i =>
      match intsAll env rest with
      | Except.error e => Except.error e
      | Except.ok is => Except.ok (i :: is)

/-- The offset normalisation shared by the overlay handlers:
`if isinstance(offset, str): offset = tuple(map(int, offset.strip("() ").split(",")))`.
Non-string offsets pass through untouched. -/
def parseOffsetVal (env : Env) : Value → Except String Value
  | Value.str s =>
    match intsAll env (pySplit (pyStrip s "() ") ',') with
    | Except.error e => Except.error e
    | Except.ok [x, y] => Except.ok (Value.pair x y)
    | Except.ok is => Except.ok (Value.list (is.map Value.num))
  | v => Except.ok v

/-- Model of `os.path.join(OUTPUT_FOLDER, name)`. -/
def ospJoin (d name : String) : String := d ++ "/" ++ name

/-- Common tail of the file-producing handlers:
`if not success or not os.path.exists(output_path): error else success`. -/
def finishCheck (output_path msg : String) (r : Bool × St × List Call) : Result × St × List Call :=
  if r.1 ∧ pathExists r.2.1 output_path then
    (Result.mkSuccess [("output_path", Value.str output_path)], r.2.1, r.2.2)
  else
    (Result.mkError msg, r.2.1, r.2.2)

/-- Tail for handlers whose delegate returns `(success, wrote-file)`. -/
def finishWrite (st : St) (output_path msg : String) (d : Bool × Bool) (cs : List Call) : Result × St × List Call :=
  finishCheck output_path msg (d.1, (if d.2 then output_path :: st else st), cs)

namespace LogoOverlay

/-- Model of `logo_overlay_image.get_position` (unknown position key defaults to
`bottom_right`; `//` is floor division). -/
def get_position (img_size logo_size : Int × Int) (position : String) (offset : Int × Int) : Int × Int :=
  let W := img_size.1
  let H := img_size.2
  let w := logo_size.1
  let h := logo_size.2
  let base : Int × Int :=
    if position = "center" then (Int.fdiv (W - w) 2, Int.fdiv (H - h) 2)
    else if position = "top_left" then (0, 0)
    else if position = "top_right" then (W - w, 0)
    else if position = "bottom_left" then (0, H - h)
    else if position = "bottom_right" then (W - w, H - h)
    else if position = "top_center" then (Int.fdiv (W - w) 2, 0)
    else if position = "bottom_center" then (Int.fdiv (W - w) 2, H - h)
    else if position = "middle_left" then (0, Int.fdiv (H - h) 2)
    else if position = "middle_right" then (W - w, Int.fdiv (H - h) 2)
    else (W - w, H - h)
  (max 0 (min (base.1 + offset.1) (W - w)), max 0 (min (base.2 + offset.2) (H - h)))

/-- Model of `LogoOverlayImageHandler.process` try-block body. -/
def body (env : Env) (st : St) (inputs config : Dict) : Except String (Result × St × List Call) :=
  match parseOffsetVal env (Dict.getD config "offset" (Value.pair 0 0)) with
  | Except.error e => Except.error e
  | Except.ok offset =>
  match pyFloat env (Dict.getD config "logo_scale" (Value.num 1)) with
  | Except.error e => Except.error e
  | Except.ok logo_scale =>
  match pyFloat env (Dict.getD config "opacity" (Value.num 1)) with
  | Except.error e => Except.error e
  | Except.ok opacity =>
  if ¬ truthy (resolve inputs config "image_path") then
    Except.ok (Result.mkError ("Input image not found: " ++ vToString (resolve inputs config "image_path")), st, [])
  else
  match asPath (resolve inputs config "image_path") with
  | Except.error e => Except.error e
  | Except.ok image_path =>
  if ¬ pathExists st image_path then
    Except.ok (Result.mkError ("Input image not found: " ++ image_path), st, [])
  else
  if ¬ truthy (resolve inputs config "logo_path") then
    Except.ok (Result.mkError ("Logo image not found: " ++ vToString (resolve inputs config "logo_path")), st, [])
  else
  match asPath (resolve inputs config "logo_path") with
  | Except.error e => Except.error e
  | Except.ok logo_path =>
  if ¬ pathExists st logo_path then
    Except.ok (Result.mkError ("Logo image not found: " ++ logo_path), st, [])
  else if ¬ hasImageExt image_path then
    Except.ok (Result.mkError ("Invalid image file format: " ++ image_path), st, [])
  else if ¬ hasImageExt logo_path then
    Except.ok (Result.mkError ("Invalid logo file format: " ++ logo_path), st, [])
  else
    Except.ok (finishWrite st (ospJoin "output" ("logo_" ++ env.uuid ++ pathSuffix image_path))
      "Failed to overlay logo or output file not created"
      (env.overlayLogo image_path logo_path (ospJoin "output" ("logo_" ++ env.uuid ++ pathSuffix image_path))
        (Dict.getD config "position" (Value.str "bottom_right")) offset logo_scale opacity)
      [Call.mk "overlay_logo" image_path logo_scale opacity 0])

/-- Model of `LogoOverlayImageHandler.process`. -/
def process (env : Env) (st : St) (inputs config : Dict) : ProcOut :=
  runProc st (body env st inputs config)

end LogoOverlay

namespace TextOverlay

/-- Model of `text_overlay_image.get_position` (identical to the logo variant except the
unknown-position default is `center`). -/
def get_position (img_size text_size : Int × Int) (position : String) (offset : Int × Int) : Int × Int :=
  let W := img_size.1
  let H := img_size.2
  let w := text_size.1
  let h := text_size.2
  let base : Int × Int :=
    if position = "center" then (Int.fdiv (W - w) 2, Int.fdiv (H - h) 2)
    else if position = "top_left" then (0, 0)
    else if position = "top_right" then (W - w, 0)
    else if position = "bottom_left" then (0, H - h)
    else if position = "bottom_right" then (W - w, H - h)
    else if position = "top_center" then (Int.fdiv (W - w) 2, 0)
    else if position = "bottom_center" then (Int.fdiv (W - w) 2, H - h)
    else if position = "middle_left" then (0, Int.fdiv (H - h) 2)
    else if position = "middle_right" then (W - w, Int.fdiv (H - h) 2)
    else (Int.fdiv (W - w) 2, Int.fdiv (H - h) 2)
  (max 0 (min (base.1 + offset.1) (W - w)), max 0 (min (base.2 + offset.2) (H - h)))

/-- Model of `TextOverlayImageHandler.process` try-block body. -/
def body (env : Env) (st : St) (inputs config : Dict) : Except String (Result × St × List Call) :=
  match pyInt env (Dict.getD config "font_size" (Value.num 40)) with
  | Except.error e => Except.error e
  | Except.ok font_size =>
  match parseOffsetVal env (Dict.getD config "offset" (Value.pair 0 0)) with
  | Except.error e => Except.error e
  | Except.ok offset =>
  match pyFloat env (Dict.getD config "opacity" (Value.num 1)) with
  | Except.error e => Except.error e
  | Except.ok opacity =>
  if ¬ truthy (resolve inputs config "image_path") then
    Except.ok (Result.mkError ("Input image not found: " ++ vToString (resolve inputs config "image_path")), st, [])
  else
  match asPath (resolve inputs config "image_path") with
  | Except.error e => Except.error e
  | Except.ok image_path =>
  if ¬ pathExists st image_path then
    Except.ok (Result.mkError ("Input image not found: " ++ image_path), st, [])
  else if ¬ hasImageExt image_path then
    Except.ok (Result.mkError ("Invalid image file format: " ++ image_path), st, [])
  else
    Except.ok (finishWrite st (ospJoin "output" ("overlay_" ++ env.uuid ++ pathSuffix image_path))
      "Failed to overlay text or output file not created"
      (env.overlayText image_path (ospJoin "output" ("overlay_" ++ env.uuid ++ pathSuffix image_path))
        (Dict.getD config "text" (Value.str "Sample Text")) font_size
        (Dict.getD config "font_name" (Value.str "DejaVuSans-Bold.ttf"))
        (Dict.getD config "color" (Value.str "white"))
        (Dict.getD config "position" (Value.str "center"))
        offset (Dict.get config "bg_color") opacity)
      [Call.mk "overlay_text" image_path opacity 0 0])

/-- Model of `TextOverlayImageHandler.process`. -/
def process (env : Env) (st : St) (inputs config : Dict) : ProcOut :=
  runProc st (body env st inputs config)

end TextOverlay

namespace EffectImage

/-- Model of `EffectImageHandler.process` try-block body. -/
def body (env : Env) (st : St) (inputs config : Dict) : Except String (Result × St × List Call) :=
  match pyFloat env (Dict.getD config "intensity" (Value.num 1)) with
  | Except.error e => Except.error e
  | Except.ok intensity =>
  if ¬ truthy (resolve inputs config "image_path") then
    Except.ok (Result.mkError ("Input image not found: " ++ vToString (resolve inputs config "image_path")), st, [])
  else
  match asPath (resolve inputs config "image_path") with
  | Except.error e => Except.error e
  | Except.ok image_path =>
  if ¬ pathExists st image_path then
    Except.ok (Result.mkError ("Input image not found: " ++ image_path), st, [])
  else if ¬ hasImageExt image_path then
    Except.ok (Result.mkError ("Invalid image file format: " ++ image_path), st, [])
  else
    Except.ok (finishWrite st
      (ospJoin "output" ("effect_" ++ vToString (Dict.getD config "effect" (Value.str "grayscale")) ++ "_" ++ env.uuid ++ pathSuffix image_path))
      "Failed to apply effect or output file not created"
      (env.applyEffect image_path
        (ospJoin "output" ("effect_" ++ vToString (Dict.getD config "effect" (Value.str "grayscale")) ++ "_" ++ env.uuid ++ pathSuffix image_path))
        (Dict.getD config "effect" (Value.str "grayscale")) intensity)
      [Call.mk "apply_effect" image_path intensity 0 0])

/-- Model of `EffectImageHandler.process`. -/
def process (env : Env) (st : St) (inputs config : Dict) : ProcOut :=
  runProc st (body env st inputs config)

end EffectImage

namespace ResizeImage

/-- Model of `ResizeImageHandler.process` try-block body. -/
def body (env : Env) (st : St) (inputs config : Dict) : Except String (Result × St × List Call) :=
  match Dict.get config "width" with
  | Value.none => Except.ok (Result.mkError "Both width and height must be specified.", st, [])
  | wv =>
  match Dict.get config "height" with
  | Value.none => Except.ok (Result.mkError "Both width and height must be specified.", st, [])
  | hv =>
  match pyInt env wv with
  | Except.error e => Except.error e
  | Except.ok width =>
  match pyInt env hv with
  | Except.error e => Except.error e
  | Except.ok height =>
  if ¬ truthy (resolve inputs config "image_path") then
    Except.ok (Result.mkError ("Input image not found: " ++ vToString (resolve inputs config "image_path")), st, [])
  else
  match asPath (resolve inputs config "image_path") with
  | Except.error e => Except.error e
  | Except.ok image_path =>
  if ¬ pathExists st image_path then
    Except.ok (Result.mkError ("Input image not found: " ++ image_path), st, [])
  else if ¬ hasImageExt image_path then
    Except.ok (Result.mkError ("Invalid image file format: " ++ image_path), st, [])
  else
    Except.ok (finishWrite st (ospJoin "output" ("resized_" ++ env.uuid ++ pathSuffix image_path))
      "Failed to resize image or output file not created"
      (env.resizeImage image_path (ospJoin "output" ("resized_" ++ env.uuid ++ pathSuffix image_path)) width height)
      [Call.mk "resize_image" image_path (width : Rat) (height : Rat) 0])

/-- Model of `ResizeImageHandler.process`. -/
def process (env : Env) (st : St) (inputs config : Dict) : ProcOut :=
  runProc st (body env st inputs config)

end ResizeImage

namespace RemoveBG

/-- Model of `RemoveBGHandler.process` try-block body.  Note: the source performs no
extension check; it opens the image and calls `rembg.remove` directly after
the existence check.  The hardcoded output extension is `.png`. -/
def body (env : Env) (st : St) (inputs config : Dict) : Except String (Result × St × List Call) :=
  if ¬ truthy (resolve inputs config "image_path") then
    Except.ok (Result.mkError ("Input image not found: " ++ vToString (resolve inputs config "image_path")), st, [])
  else
  match asPath (resolve inputs config "image_path") with
  | Except.error e => Except.error e
  | Except.ok image_path =>
  if ¬ pathExists st image_path then
    Except.ok (Result.mkError ("Input image not found: " ++ image_path), st, [])
  else
  match env.imageOpen image_path with
  | Except.error e => Except.error e
  | Except.ok _ =>
  match env.rembgRemove image_path with
  | Except.error e => Except.error e
  | Except.ok _ =>
  match env.saveImage (ospJoin "output" ("nobg_" ++ env.uuid ++ ".png")) with
  | Except.error e => Except.error e
  | Except.ok _ =>
    Except.ok (Result.mkSuccess [("output_path", Value.str (ospJoin "output" ("nobg_" ++ env.uuid ++ ".png")))],
      (ospJoin "output" ("nobg_" ++ env.uuid ++ ".png")) :: st,
      [Call.mk "Image.open" image_path 0 0 0, Call.mk "rembg.remove" image_path 0 0 0,
        Call.mk "save" (ospJoin "output" ("nobg_" ++ env.uuid ++ ".png")) 0 0 0])

/-- Model of `RemoveBGHandler.process`. -/
def process (env : Env) (st : St) (inputs config : Dict) : ProcOut :=
  runProc st (body env st inputs config)

end RemoveBG

namespace RemoveObject

/-- Model of `RemoveObjectHandler.process` try-block body (lama-cleaner inpainting). -/
def body (env : Env) (st : St) (inputs config : Dict) : Except String (Result × St × List Call) :=
  if ¬ truthy (resolve inputs config "image_path") then
    Except.ok (Result.mkError "Input image not found.", st, [])
  else
  match asPath (resolve inputs config "image_path") with
  | Except.error e => Except.error e
  | Except.ok image_path =>
  if ¬ pathExists st image_path then
    Except.ok (Result.mkError "Input image not found.", st, [])
  else
  if ¬ truthy (resolve inputs config "mask_path") then
    Except.ok (Result.mkError "Mask image not found.", st, [])
  else
  match asPath (resolve inputs config "mask_path") with
  | Except.error e => Except.error e
  | Except.ok mask_path =>
  if ¬ pathExists st mask_path then
    Except.ok (Result.mkError "Mask image not found.", st, [])
  else
  match env.imageOpen image_path with
  | Except.error e => Except.error e
  | Except.ok _ =>
  match env.imageOpen mask_path with
  | Except.error e => Except.error e
  | Except.ok _ =>
  match env.inpaintRun image_path mask_path with
  | Except.error e => Except.error e
  | Except.ok _ =>
  match env.saveImage (ospJoin "output" ("inpaint_" ++ env.uuid ++
      (if pathSuffix image_path = "" then ".png" else pathSuffix image_path))) with
  | Except.error e => Except.error e
  | Except.ok _ =>
    Except.ok (Result.mkSuccess [("output_path", Value.str (ospJoin "output" ("inpaint_" ++ env.uuid ++
        (if pathSuffix image_path = "" then ".png" else pathSuffix image_path))))],
      (ospJoin "output" ("inpaint_" ++ env.uuid ++
        (if pathSuffix image_path = "" then ".png" else pathSuffix image_path))) :: st,
      [Call.mk "Image.open" image_path 0 0 0, Call.mk "Image.open" mask_path 0 0 0,
        Call.mk "lama" image_path 0 0 0])

/-- Model of `RemoveObjectHandler.process`. -/
def process (env : Env) (st : St) (inputs config : Dict) : ProcOut :=
  runProc st (body env st inputs config)

end RemoveObject

namespace AutoCaption

/-- Model of `AutoCaptionImageHandler.process` try-block body.  The hardcoded API key
and the request payload are folded into the `captionApi` oracle (its result is
the status code, response text and extracted caption).  Note: the source
writes no output file; on success it returns only the caption. -/
def body (env : Env) (st : St) (inputs config : Dict) : Except String (Result × St × List Call) :=
  if ¬ truthy (resolve inputs config "image_path") then
    Except.ok (Result.mkError "Input image not found.", st, [])
  else
  match asPath (resolve inputs config "image_path") with
  | Except.error e => Except.error e
  | Except.ok image_path =>
  if ¬ pathExists st image_path then
    Except.ok (Result.mkError "Input image not found.", st, [])
  else
  match env.readFileBytes image_path with
  | Except.error e => Except.error e
  | Except.ok _ =>
  match env.captionApi image_path with
  | Except.error e => Except.error e
  | Except.ok (code, text, caption) =>
  if code ≠ 200 then
    Except.ok (Result.mkError ("Gemini API error: " ++ text), st, [Call.mk "requests.post" image_path 0 0 0])
  else if caption = "" then
    Except.ok (Result.mkError "No caption generated.", st, [Call.mk "requests.post" image_path 0 0 0])
  else
    Except.ok (Result.mkSuccess [("caption", Value.str caption)], st, [Call.mk "requests.post" image_path 0 0 0])

/-- Model of `AutoCaptionImageHandler.process`. -/
def process (env : Env) (st : St) (inputs config : Dict) : ProcOut :=
  runProc st (body env st inputs config)

end AutoCaption

namespace GenerateImage

/-- Model of `inputs.get("api_key") or config.get("api_key") or os.getenv("OPENAI_API_KEY", "")`. -/
def apiKeyOf (env : Env) (inputs config : Dict) : Value :=
  if truthy (Dict.get inputs "api_key") then Dict.get inputs "api_key"
  else if truthy (Dict.get config "api_key") then Dict.get config "api_key"
  else Value.str (env.osGetEnv "OPENAI_API_KEY")

/-- Model of `GenerateImageHandler.process` try-block body. -/
def body (env : Env) (st : St) (inputs config : Dict) : Except String (Result × St × List Call) :=
  if ¬ truthy (resolve inputs config "prompt") then
    Except.ok (Result.mkError "Prompt is required.", st, [])
  else if ¬ truthy (apiKeyOf env inputs config) then
    Except.ok (Result.mkError "OpenAI API key is required.", st, [])
  else
  match env.openaiCreate (resolve inputs config "prompt") with
  | Except.error e => Except.error e
  | Except.ok image_url =>
  match env.httpGet image_url with
  | Except.error e => Except.error e
  | Except.ok _ =>
  match env.writeBytes (ospJoin "output" ("gen_" ++ env.uuid ++ ".png")) with
  | Except.error e => Except.error e
  | Except.ok _ =>
    Except.ok (Result.mkSuccess [("output_path", Value.str (ospJoin "output" ("gen_" ++ env.uuid ++ ".png"))),
        ("image_url", Value.str image_url)],
      (ospJoin "output" ("gen_" ++ env.uuid ++ ".png")) :: st,
      [Call.mk "openai.Image.create" "" 0 0 0, Call.mk "requests.get" image_url 0 0 0])

/-- Model of `GenerateImageHandler.process`. -/
def process (env : Env) (st : St) (inputs config : Dict) : ProcOut :=
  runProc st (body env st inputs config)

end GenerateImage

namespace Trim

/-- Model of `TrimHandler.trim_video`: load the clip, default/clamp `end_time` to the
duration, reject an empty or negative range, then subclip and write.  All
internal exceptions are caught and become `False`; the returned triple is
(return value, filesystem, calls). -/
def trim_video (env : Env) (st : St) (video_path output_path : String)
    (start_time : Rat) (end_time : Option Rat) : Bool × St × List Call :=
  match env.trimLoad video_path with
  | Option.none => (false, st, [Call.mk "VideoFileClip" video_path 0 0 0])
  | some video =>
    match (match end_time with
           | Option.none => video.duration
           | some e => if video.duration < e then video.duration else e : Rat) with
    | endT =>
      if start_time < 0 ∨ endT ≤ start_time then
        (false, st, [Call.mk "VideoFileClip" video_path 0 0 0])
      else if env.trimWrite video_path output_path start_time endT then
        (true, output_path :: st,
          [Call.mk "VideoFileClip" video_path 0 0 0, Call.mk "subclip" video_path start_time endT 0])
      else
        (false, st,
          [Call.mk "VideoFileClip" video_path 0 0 0, Call.mk "subclip" video_path start_time endT 0])

/-- Model of `TrimHandler.process` try-block body. -/
def body (env : Env) (st : St) (inputs config : Dict) : Except String (Result × St × List Call) :=
  match pyFloat env (Dict.getD config "start_time" (Value.num 0)) with
  | Except.error e => Except.error e
  | Except.ok start_time =>
  match (match Dict.get config "end_time" with
         | Value.none => Except.ok Option.none
         | v =>
           match pyFloat env v with
           | Except.error e => Except.error e
           | Except.ok q => Except.ok (some q) : Except String (Option Rat)) with
  | Except.error e => Except.error e
  | Except.ok end_time =>
  if ¬ truthy (resolve inputs config "video_path") then
    Except.ok (Result.mkError ("Input video not found: " ++ vToString (resolve inputs config "video_path")), st, [])
  else
  match asPath (resolve inputs config "video_path") with
  | Except.error e => Except.error e
  | Except.ok video_path =>
  if ¬ pathExists st video_path then
    Except.ok (Result.mkError ("Input video not found: " ++ video_path), st, [])
  else if ¬ hasVideoExt video_path then
    Except.ok (Result.mkError ("Invalid file format: " ++ video_path), st, [])
  else
    Except.ok (finishCheck (ospJoin "output" ("trimmed_" ++ env.uuid ++ pathSuffix video_path))
      "Failed to trim video or output file not created"
      (trim_video env st video_path (ospJoin "output" ("trimmed_" ++ env.uuid ++ pathSuffix video_path))
        start_time end_time))

/-- Model of `TrimHandler.process`. -/
def process (env : Env) (st : St) (inputs config : Dict) : ProcOut :=
  runProc st (body env st inputs config)

end Trim

namespace Watermark

/-- The subtitle-JSON cleanup applied before the first parse attempt:
replace escaped double quotes when present (the `elif` branch of the source
replaces `'"'` with `'"'`, a no-op, so only the first branch changes the
string). -/
def cleanSubtitles (s : String) : String :=
  if containsSub s "\\\"" then pyReplace s "\\\"" "\""
  else s

/-- The subtitle parsing block of `WatermarkHandler.process`: skip empty or
`"[]"` payloads; try the cleaned string; on a parse error retry with all
backslashes removed; on any remaining failure silently use the empty list.
A non-string payload always ends as the empty list (`json.loads` raises a
`TypeError`, caught by the bare `except`). -/
def parseSubtitlesVal (env : Env) : Value → List Value
  | Value.str sj =>
    if sj ≠ "" ∧ sj ≠ "[]" then
      match env.jsonParse (cleanSubtitles sj) with
      | some l => l
      | Option.none =>
        match env.jsonParse (pyReplace sj "\\" "") with
        | some l => l
        | Option.none => []
    else []
  | v => if truthy v then [] else []

/-- Model of `WatermarkHandler.add_watermark`, with clip construction, composition and
`write_videofile` folded into the `wmCompose` oracle (per-subtitle errors are
swallowed in the source; the subtitle count is what reaches composition).
All internal exceptions are caught and become `False`. -/
def add_watermark (env : Env) (st : St) (video_path output_path : String)
    (watermark_text : Value) (subtitles : List Value)
    (start_time : Rat) (end_time : Option Rat) : Bool × St × List Call :=
  if ¬ pathExists st video_path then (false, st, [])
  else
  match env.wmLoad video_path with
  | Option.none => (false, st, [Call.mk "VideoFileClip" video_path 0 0 0])
  | some video =>
    match (match end_time with
           | Option.none => video.duration
           | some e => if video.duration < e then video.duration else e : Rat) with
    | endT =>
      if env.wmCompose video_path output_path watermark_text subtitles.length start_time endT then
        (true, output_path :: st,
          [Call.mk "VideoFileClip" video_path 0 0 0,
            Call.mk "write_videofile" output_path start_time endT subtitles.length])
      else
        (false, st,
          [Call.mk "VideoFileClip" video_path 0 0 0,
            Call.mk "write_videofile" output_path start_time endT subtitles.length])

/-- Model of `WatermarkHandler.process` try-block body. -/
def body (env : Env) (st : St) (inputs config : Dict) : Except String (Result × St × List Call) :=
  match pyFloat env (Dict.getD config "start_time" (Value.num 0)) with
  | Except.error e => Except.error e
  | Except.ok start_time =>
  match (match Dict.get config "end_time" with
         | Value.none => Except.ok Option.none
         | v =>
           match pyFloat env v with
           | Except.error e => Except.error e
           | Except.ok q => Except.ok (some q) : Except String (Option Rat)) with
  | Except.error e => Except.error e
  | Except.ok end_time =>
  if ¬ truthy (resolve inputs config "video_path") then
    Except.ok (Result.mkError ("Input video not found: " ++ vToString (resolve inputs config "video_path")), st, [])
  else
  match asPath (resolve inputs config "video_path") with
  | Except.error e => Except.error e
  | Except.ok video_path =>
  if ¬ pathExists st video_path then
    Except.ok (Result.mkError ("Input video not found: " ++ video_path), st, [])
  else if ¬ hasVideoExt video_path then
    Except.ok (Result.mkError ("Invalid file format: " ++ video_path), st, [])
  else
    Except.ok (finishCheck (ospJoin "output" ("watermarked_" ++ env.uuid ++ pathSuffix video_path))
      "Failed to add watermark to video or output file not created"
      (add_watermark env st video_path (ospJoin "output" ("watermarked_" ++ env.uuid ++ pathSuffix video_path))
        (Dict.getD config "watermark_text" (Value.str ""))
        (parseSubtitlesVal env (Dict.getD config "subtitles_json" (Value.str "[]")))
        start_time end_time))

/-- Model of `WatermarkHandler.process`. -/
def process (env : Env) (st : St) (inputs config : Dict) : ProcOut :=
  runProc st (body env st inputs config)

end Watermark

/-- Outcome of the per-path validation loop of `MergeHandler.process`. -/
inductive MergeRes where
  | fail (msg : String)
  | done (paths : List String)

namespace Merge

/-- The `for path in video_paths` validation loop: first missing file or bad
extension wins; a non-string entry raises out of the loop. -/
def checkPaths (st : St) : List Value → Except String MergeRes
  | [] => Except.ok (MergeRes.done [])
  | v :: rest =>
    match asPath v with
    | Except.error e => Except.error e
    | Except.ok p =>
      if ¬ pathExists st p then Except.ok (MergeRes.fail ("Input video not found: " ++ p))
      else if ¬ hasVideoExt p then Except.ok (MergeRes.fail ("Invalid file format: " ++ p))
      else
        match checkPaths st rest with
        | Except.error e => Except.error e
        | Except.ok (MergeRes.fail m) => Except.ok (MergeRes.fail m)
        | Except.ok (MergeRes.done ps) => Except.ok (MergeRes.done (p :: ps))

/-- Model of `MergeHandler.process` try-block body.  Note: `video_paths` is read from
`config` only; `inputs` is documented as unused in the source. -/
def body (env : Env) (st : St) (_inputs config : Dict) : Except String (Result × St × List Call) :=
  match Dict.get config "video_paths" with
  | Value.list l =>
    if l.length < 2 then
      Except.ok (Result.mkError "At least two video paths must be provided for merging.", st, [])
    else
      match checkPaths st l with
      | Except.error e => Except.error e
      | Except.ok (MergeRes.fail m) => Except.ok (Result.mkError m, st, [])
      | Except.ok (MergeRes.done ps) =>
        Except.ok (finishWrite st (ospJoin "output" ("merged_" ++ env.uuid ++ pathSuffix (ps.headD "")))
          "Failed to merge videos or output file not created"
          (env.mergeVideos ps (ospJoin "output" ("merged_" ++ env.uuid ++ pathSuffix (ps.headD ""))))
          [Call.mk "merge_videos" (ps.headD "") 0 0 ps.length])
  | _ => Except.ok (Result.mkError "At least two video paths must be provided for merging.", st, [])

/-- Model of `MergeHandler.process`. -/
def process (env : Env) (st : St) (inputs config : Dict) : ProcOut :=
  runProc st (body env st inputs config)

end Merge

namespace AddBGM

/-- Model of `AddBGMHandler.process` try-block body.  Note: despite its docstring, the
source reads `video_path`, `music_path` and both volumes from `config` only;
`inputs` is never consulted. -/
def body (env : Env) (st : St) (_inputs config : Dict) : Except String (Result × St × List Call) :=
  match pyFloat env (Dict.getD config "music_volume" (Value.num ((1 : Rat) / 2))) with
  | Except.error e => Except.error e
  | Except.ok music_volume =>
  match pyFloat env (Dict.getD config "video_volume" (Value.num 1)) with
  | Except.error e => Except.error e
  | Except.ok video_volume =>
  if ¬ truthy (Dict.get config "video_path") then
    Except.ok (Result.mkError ("Input video not found: " ++ vToString (Dict.get config "video_path")), st, [])
  else
  match asPath (Dict.get config "video_path") with
  | Except.error e => Except.error e
  | Except.ok video_path =>
  if ¬ pathExists st video_path then
    Except.ok (Result.mkError ("Input video not found: " ++ video_path), st, [])
  else
  if ¬ truthy (Dict.get config "music_path") then
    Except.ok (Result.mkError ("Music file not found: " ++ vToString (Dict.get config "music_path")), st, [])
  else
  match asPath (Dict.get config "music_path") with
  | Except.error e => Except.error e
  | Except.ok music_path =>
  if ¬ pathExists st music_path then
    Except.ok (Result.mkError ("Music file not found: " ++ music_path), st, [])
  else if ¬ hasVideoExt video_path then
    Except.ok (Result.mkError ("Invalid video file format: " ++ video_path), st, [])
  else if ¬ hasAudioExt music_path then
    Except.ok (Result.mkError ("Invalid music file format: " ++ music_path), st, [])
  else
    Except.ok (finishWrite st (ospJoin "output" ("bgm_" ++ env.uuid ++ pathSuffix video_path))
      "Failed to add background music or output file not created"
      (env.addBgm video_path music_path (ospJoin "output" ("bgm_" ++ env.uuid ++ pathSuffix video_path))
        music_volume video_volume)
      [Call.mk "add_bgm" video_path music_volume video_volume 0])

/-- Model of `AddBGMHandler.process`. -/
def process (env : Env) (st : St) (inputs config : Dict) : ProcOut :=
  runProc st (body env st inputs config)

end AddBGM

/-- The twelve handler variants. -/
inductive Handler where
  | autoCaption | generateImage | removeObject | effectImage | logoOverlay | removeBG
  | resizeImage | textOverlay | addBGM | merge | trim | watermark
deriving DecidableEq

/-- The try-block body of each handler's `process`. -/
def bodyOf (h : Handler) (env : Env) (st : St) (inputs config : Dict) :
    Except String (Result × St × List Call) :=
  match h with
  | Handler.autoCaption => AutoCaption.body env st inputs config
  | Handler.generateImage => GenerateImage.body env st inputs config
  | Handler.removeObject => RemoveObject.body env st inputs config
  | Handler.effectImage => EffectImage.body env st inputs config
  | Handler.logoOverlay => LogoOverlay.body env st inputs config
  | Handler.removeBG => RemoveBG.body env st inputs config
  | Handler.resizeImage => ResizeImage.body env st inputs config
  | Handler.textOverlay => TextOverlay.body env st inputs config
  | Handler.addBGM => AddBGM.body env st inputs config
  | Handler.merge => Merge.body env st inputs config
  | Handler.trim => Trim.body env st inputs config
  | Handler.watermark => Watermark.body env st inputs config

/-- The top-level `process(inputs, config)` of each handler module. -/
def dispatch (h : Handler) (env : Env) (st : St) (inputs config : Dict) : ProcOut :=
  match h with
  | Handler.autoCaption => AutoCaption.process env st inputs config
  | Handler.generateImage => GenerateImage.process env st inputs config
  | Handler.removeObject => RemoveObject.process env st inputs config
  | Handler.effectImage => EffectImage.process env st inputs config
  | Handler.logoOverlay => LogoOverlay.process env st inputs config
  | Handler.removeBG => RemoveBG.process env st inputs config
  | Handler.resizeImage => ResizeImage.process env st inputs config
  | Handler.textOverlay => TextOverlay.process env st inputs config
  | Handler.addBGM => AddBGM.process env st inputs config
  | Handler.merge => Merge.process env st inputs config
  | Handler.trim => Trim.process env st inputs config
  | Handler.watermark => Watermark.process env st inputs config

/-- The envelope invariant: the status is `"success"` with outputs and no
error field, or `"error"` with an error message and no outputs field. -/
def envelopeOk (r : Result) : Prop :=
  (r.status = "success" ∧ r.outputs.isSome ∧ r.error = Option.none) ∨
  (r.status = "error" ∧ r.error.isSome ∧ r.outputs = Option.none)

/-- The string payloads of a value (the path it denotes, when it is one). -/
def strOf : Value → List String
  | Value.str s => [s]
  | _ => []

/-- The media kinds whose extension allow-lists the handlers enforce. -/
inductive MediaKind where
  | image | video | audio
deriving DecidableEq

/-- The allow-list test for each media kind. -/
def allowExt : MediaKind → String → Bool
  | MediaKind.image => hasImageExt
  | MediaKind.video => hasVideoExt
  | MediaKind.audio => hasAudioExt

/-- The input file paths each handler requires to exist, as the handler
resolves them (`inputs`-first for most, `config`-only for AddBGM and Merge;
GenerateImage takes no file input). -/
def refPaths (h : Handler) (inputs config : Dict) : List String :=
  match h with
  | Handler.autoCaption => strOf (resolve inputs config "image_path")
  | Handler.generateImage => []
  | Handler.removeObject =>
    strOf (resolve inputs config "image_path") ++ strOf (resolve inputs config "mask_path")
  | Handler.effectImage => strOf (resolve inputs config "image_path")
  | Handler.logoOverlay =>
    strOf (resolve inputs config "image_path") ++ strOf (resolve inputs config "logo_path")
  | Handler.removeBG => strOf (resolve inputs config "image_path")
  | Handler.resizeImage => strOf (resolve inputs config "image_path")
  | Handler.textOverlay => strOf (resolve inputs config "image_path")
  | Handler.addBGM => strOf (Dict.get config "video_path") ++ strOf (Dict.get config "music_path")
  | Handler.merge =>
    (match Dict.get config "video_paths" with
     | Value.list l => (l.map strOf).flatten
     | _ => [])
  | Handler.trim => strOf (resolve inputs config "video_path")
  | Handler.watermark => strOf (resolve inputs config "video_path")

/-- The extension checks each handler performs before delegating: the file
path as the handler resolves it, paired with the allow-list it is checked
against.  RemoveBG, RemoveObject, AutoCaption and GenerateImage perform none. -/
def extChecks (h : Handler) (inputs config : Dict) : List (String × MediaKind) :=
  match h with
  | Handler.effectImage => (strOf (resolve inputs config "image_path")).map (·, MediaKind.image)
  | Handler.logoOverlay =>
    ((strOf (resolve inputs config "image_path")).map (·, MediaKind.image)) ++
      ((strOf (resolve inputs config "logo_path")).map (·, MediaKind.image))
  | Handler.resizeImage => (strOf (resolve inputs config "image_path")).map (·, MediaKind.image)
  | Handler.textOverlay => (strOf (resolve inputs config "image_path")).map (·, MediaKind.image)
  | Handler.addBGM =>
    ((strOf (Dict.get config "video_path")).map (·, MediaKind.video)) ++
      ((strOf (Dict.get config "music_path")).map (·, MediaKind.audio))
  | Handler.merge =>
    (match Dict.get config "video_paths" with
     | Value.list l => ((l.map strOf).flatten).map (·, MediaKind.video)
     | _ => [])
  | Handler.trim => (strOf (resolve inputs config "video_path")).map (·, MediaKind.video)
  | Handler.watermark => (strOf (resolve inputs config "video_path")).map (·, MediaKind.video)
  | _ => []

/-- A concrete benign environment: every parser fails, every delegate
succeeds and writes its file, the caption API returns a caption, and JSON
never parses (used to drive witnesses through specific branches). -/
def envW : Env := Env.mk
  (fun _ => Option.none)
  (fun _ => Option.none)
  "u1"
  (fun _ => "")
  (fun _ _ _ _ => (true, true))
  (fun _ _ _ _ => (true, true))
  (fun _ _ _ _ _ _ _ _ _ _ => (true, true))
  (fun _ _ _ _ _ _ _ => (true, true))
  (fun _ => some ⟨10⟩)
  (fun _ _ _ _ => true)
  (fun _ => some ⟨10⟩)
  (fun _ _ _ _ _ _ => true)
  (fun _ => Option.none)
  (fun _ _ => (true, true))
  (fun _ _ _ _ _ => (true, true))
  (fun _ => Except.ok ())
  (fun _ => Except.ok ())
  (fun _ => Except.ok ())
  (fun _ _ => Except.ok ())
  (fun _ => Except.ok ())
  (fun _ => Except.ok (200, "", "a cat"))
  (fun _ => Except.ok "http://img.example/1.png")
  (fun _ => Except.ok ())
  (fun _ => Except.ok ())

theorem envOk_mkError (e : String) : envelopeOk (Result.mkError e) := Or.inr ⟨rfl, rfl, rfl⟩

theorem envOk_mkSuccess (o : Dict) : envelopeOk (Result.mkSuccess o) := Or.inl ⟨rfl, rfl, rfl⟩

/-- Case analysis for `runProc`: a property holds of the envelope when it
holds of every normal return and of every caught exception. -/
theorem runProc_cases (st : St) (b : Except String (Result × St × List Call))
    (P : Result → St → List Call → Prop)
    (hok : ∀ v, b = Except.ok v → P v.1 v.2.1 v.2.2)
    (herr : ∀ e, P (Result.mkError ("Error processing node: " ++ e)) st []) :
    P (runProc st b).result (runProc st b).st (runProc st b).calls := by
  cases b with
  | ok v =>
    obtain ⟨r, st', cs⟩ := v
    exact hok (r, st', cs) rfl
  | error e => exact herr e

theorem autoCaption_body_envelope (env : Env) (st : St) (inputs config : Dict)
    (v : Result × St × List Call)
    (h : AutoCaption.body env st inputs config = Except.ok v) : envelopeOk v.1 := by
  unfold AutoCaption.body at h
  repeat' split at h
  all_goals cases h
  all_goals first
    | exact envOk_mkError _
    | exact envOk_mkSuccess _

theorem generateImage_body_envelope (env : Env) (st : St) (inputs config : Dict)
    (v : Result × St × List Call)
    (h : GenerateImage.body env st inputs config = Except.ok v) : envelopeOk v.1 := by
  unfold GenerateImage.body at h
  repeat' split at h
  all_goals cases h
  all_goals first
    | exact envOk_mkError _
    | exact envOk_mkSuccess _

theorem removeObject_body_envelope (env : Env) (st : St) (inputs config : Dict)
    (v : Result × St × List Call)
    (h : RemoveObject.body env st inputs config = Except.ok v) : envelopeOk v.1 := by
  unfold RemoveObject.body at h
  repeat' split at h
  all_goals cases h
  all_goals first
    | exact envOk_mkError _
    | exact envOk_mkSuccess _

theorem effectImage_body_envelope (env : Env) (st : St) (inputs config : Dict)
    (v : Result × St × List Call)
    (h : EffectImage.body env st inputs config = Except.ok v) : envelopeOk v.1 := by
  unfold EffectImage.body finishWrite finishCheck at h
  repeat' split at h
  all_goals cases h
  all_goals first
    | exact envOk_mkError _
    | exact envOk_mkSuccess _

theorem logoOverlay_body_envelope (env : Env) (st : St) (inputs config : Dict)
    (v : Result × St × List Call)
    (h : LogoOverlay.body env st inputs config = Except.ok v) : envelopeOk v.1 := by
  unfold LogoOverlay.body finishWrite finishCheck at h
  repeat' split at h
  all_goals cases h
  all_goals first
    | exact envOk_mkError _
    | exact envOk_mkSuccess _

theorem removeBG_body_envelope (env : Env) (st : St) (inputs config : Dict)
    (v : Result × St × List Call)
    (h : RemoveBG.body env st inputs config = Except.ok v) : envelopeOk v.1 := by
  unfold RemoveBG.body at h
  repeat' split at h
  all_goals cases h
  all_goals first
    | exact envOk_mkError _
    | exact envOk_mkSuccess _

theorem resizeImage_body_envelope (env : Env) (st : St) (inputs config : Dict)
    (v : Result × St × List Call)
    (h : ResizeImage.body env st inputs config = Except.ok v) : envelopeOk v.1 := by
  unfold ResizeImage.body finishWrite finishCheck at h
  repeat' split at h
  all_goals cases h
  all_goals first
    | exact envOk_mkError _
    | exact envOk_mkSuccess _

theorem textOverlay_body_envelope (env : Env) (st : St) (inputs config : Dict)
    (v : Result × St × List Call)
    (h : TextOverlay.body env st inputs config = Except.ok v) : envelopeOk v.1 := by
  unfold TextOverlay.body finishWrite finishCheck at h
  repeat' split at h
  all_goals cases h
  all_goals first
    | exact envOk_mkError _
    | exact envOk_mkSuccess _

theorem addBGM_body_envelope (env : Env) (st : St) (inputs config : Dict)
    (v : Result × St × List Call)
    (h : AddBGM.body env st inputs config = Except.ok v) : envelopeOk v.1 := by
  unfold AddBGM.body finishWrite finishCheck at h
  repeat' split at h
  all_goals cases h
  all_goals first
    | exact envOk_mkError _
    | exact envOk_mkSuccess _

theorem merge_body_envelope (env : Env) (st : St) (inputs config : Dict)
    (v : Result × St × List Call)
    (h : Merge.body env st inputs config = Except.ok v) : envelopeOk v.1 := by
  unfold Merge.body finishWrite finishCheck at h
  repeat' split at h
  all_goals cases h
  all_goals first
    | exact envOk_mkError _
    | exact envOk_mkSuccess _

theorem trim_body_envelope (env : Env) (st : St) (inputs config : Dict)
    (v : Result × St × List Call)
    (h : Trim.body env st inputs config = Except.ok v) : envelopeOk v.1 := by
  unfold Trim.body finishCheck at h
  repeat' split at h
  all_goals cases h
  all_goals first
    | exact envOk_mkError _
    | exact envOk_mkSuccess _

theorem watermark_body_envelope (env : Env) (st : St) (inputs config : Dict)
    (v : Result × St × List Call)
    (h : Watermark.body env st inputs config = Except.ok v) : envelopeOk v.1 := by
  unfold Watermark.body finishCheck at h
  repeat' split at h
  all_goals cases h
  all_goals first
    | exact envOk_mkError _
    | exact envOk_mkSuccess _

/-- C4: every result any handler's `process` returns satisfies the envelope
invariant — the status is `"success"` or `"error"`, a success carries an
outputs mapping and no error field, an error carries an error string and no
outputs field, so exactly one of outputs/error is present, matching the
status. -/
theorem C4_result_envelope (h : Handler) (env : Env) (st : St) (inputs config : Dict) :
    envelopeOk (dispatch h env st inputs config).result := by
  have hd : dispatch h env st inputs config = runProc st (bodyOf h env st inputs config) := by
    cases h <;> rfl
  rw [hd]
  refine runProc_cases st _ (fun r _ _ => envelopeOk r) ?_ (fun e => envOk_mkError _)
  intro v hv
  cases h
  case autoCaption => exact autoCaption_body_envelope env st inputs config v hv
  case generateImage => exact generateImage_body_envelope env st inputs config v hv
  case removeObject => exact removeObject_body_envelope env st inputs config v hv
  case effectImage => exact effectImage_body_envelope env st inputs config v hv
  case logoOverlay => exact logoOverlay_body_envelope env st inputs config v hv
  case removeBG => exact removeBG_body_envelope env st inputs config v hv
  case resizeImage => exact resizeImage_body_envelope env st inputs config v hv
  case textOverlay => exact textOverlay_body_envelope env st inputs config v hv
  case addBGM => exact addBGM_body_envelope env st inputs config v hv
  case merge => exact merge_body_envelope env st inputs config v hv
  case trim => exact trim_body_envelope env st inputs config v hv
  case watermark => exact watermark_body_envelope env st inputs config v hv

/-- C1: for every handler variant and all inputs/config (and environment and
filesystem), the top-level `process` returns normally: when its try-block body
returns a result it is passed through unchanged, and when the body raises any
exception the call returns the error envelope
`{status: "error", error: "Error processing node: ..."}` instead of
propagating — no exception escapes `process`. -/
theorem C1_process_never_raises (h : Handler) (env : Env) (st : St) (inputs config : Dict) :
    (∃ v, bodyOf h env st inputs config = Except.ok v ∧
        dispatch h env st inputs config = ⟨v.1, v.2.1, v.2.2⟩) ∨
    (∃ e, bodyOf h env st inputs config = Except.error e ∧
        dispatch h env st inputs config =
          ⟨Result.mkError ("Error processing node: " ++ e), st, []⟩) := by
  have hd : dispatch h env st inputs config = runProc st (bodyOf h env st inputs config) := by
    cases h <;> rfl
  rw [hd]
  cases hb : bodyOf h env st inputs config with
  | ok v =>
    refine Or.inl ⟨v, rfl, ?_⟩
    obtain ⟨r, st', cs⟩ := v
    rfl
  | error e => exact Or.inr ⟨e, rfl, rfl⟩

/-- C8: in the logo-overlay position computation, a logo strictly larger than
the base image at `position="bottom_right"` with offset `(0,0)` is clamped to
exactly `(0,0)`; and for all sizes, positions and offsets both returned
coordinates are nonnegative. -/
theorem C8_get_position_clamped :
    (∀ W H w h : Int, W < w → H < h →
      LogoOverlay.get_position (W, H) (w, h) "bottom_right" (0, 0) = (0, 0)) ∧
    (∀ (img logo : Int × Int) (position : String) (offset : Int × Int),
      0 ≤ (LogoOverlay.get_position img logo position offset).1 ∧
      0 ≤ (LogoOverlay.get_position img logo position offset).2) := by
  constructor
  · intro W H w h hw hh
    simp only [LogoOverlay.get_position]
    norm_num
    constructor <;> omega
  · intro img logo position offset
    exact ⟨le_max_left _ _, le_max_left _ _⟩

/-- Witness for C8 at a concrete oversized logo and a concrete arbitrary call. -/
theorem C8_get_position_clamped_witness :
    LogoOverlay.get_position (2, 2) (3, 4) "bottom_right" (0, 0) = (0, 0) ∧
    (0 ≤ (LogoOverlay.get_position (5, 5) (2, 2) "top_left" (-7, -9)).1 ∧
      0 ≤ (LogoOverlay.get_position (5, 5) (2, 2) "top_left" (-7, -9)).2) :=
  ⟨C8_get_position_clamped.1 2 2 3 4 (by decide) (by decide),
    C8_get_position_clamped.2 (5, 5) (2, 2) "top_left" (-7, -9)⟩

theorem strOf_mem {v : Value} {p : String} (h : p ∈ strOf v) : v = Value.str p := by
  cases v <;> simp [strOf] at h
  rw [h]

theorem effect_missing_body (env : Env) (st : St) (inputs config : Dict) (p : String)
    (v : Result × St × List Call)
    (hres : resolve inputs config "image_path" = Value.str p)
    (hex : pathExists st p = false)
    (h : EffectImage.body env st inputs config = Except.ok v) :
    v.1.status = "error" ∧ v.2.1 = st := by
  unfold EffectImage.body at h
  rw [hres] at h
  repeat' split at h
  all_goals cases h
  all_goals first
    | exact ⟨rfl, rfl⟩
    | simp_all [asPath, truthy]

theorem resize_missing_body (env : Env) (st : St) (inputs config : Dict) (p : String)
    (v : Result × St × List Call)
    (hres : resolve inputs config "image_path" = Value.str p)
    (hex : pathExists st p = false)
    (h : ResizeImage.body env st inputs config = Except.ok v) :
    v.1.status = "error" ∧ v.2.1 = st := by
  unfold ResizeImage.body at h
  rw [hres] at h
  repeat' split at h
  all_goals cases h
  all_goals first
    | exact ⟨rfl, rfl⟩
    | simp_all [asPath, truthy]

theorem textOverlay_missing_body (env : Env) (st : St) (inputs config : Dict) (p : String)
    (v : Result × St × List Call)
    (hres : resolve inputs config "image_path" = Value.str p)
    (hex : pathExists st p = false)
    (h : TextOverlay.body env st inputs config = Except.ok v) :
    v.1.status = "error" ∧ v.2.1 = st := by
  unfold TextOverlay.body at h
  rw [hres] at h
  repeat' split at h
  all_goals cases h
  all_goals first
    | exact ⟨rfl, rfl⟩
    | simp_all [asPath, truthy]

theorem logo_missing_image_body (env : Env) (st : St) (inputs config : Dict) (p : String)
    (v : Result × St × List Call)
    (hres : resolve inputs config "image_path" = Value.str p)
    (hex : pathExists st p = false)
    (h : LogoOverlay.body env st inputs config = Except.ok v) :
    v.1.status = "error" ∧ v.2.1 = st := by
  unfold LogoOverlay.body at h
  rw [hres] at h
  repeat' split at h
  all_goals cases h
  all_goals first
    | exact ⟨rfl, rfl⟩
    | simp_all [asPath, truthy]

theorem logo_missing_logo_body (env : Env) (st : St) (inputs config : Dict) (p : String)
    (v : Result × St × List Call)
    (hres : resolve inputs config "logo_path" = Value.str p)
    (hex : pathExists st p = false)
    (h : LogoOverlay.body env st inputs config = Except.ok v) :
    v.1.status = "error" ∧ v.2.1 = st := by
  unfold LogoOverlay.body at h
  rw [hres] at h
  repeat' split at h
  all_goals cases h
  all_goals first
    | exact ⟨rfl, rfl⟩
    | simp_all [asPath, truthy]

theorem removeBG_missing_body (env : Env) (st : St) (inputs config : Dict) (p : String)
    (v : Result × St × List Call)
    (hres : resolve inputs config "image_path" = Value.str p)
    (hex : pathExists st p = false)
    (h : RemoveBG.body env st inputs config = Except.ok v) :
    v.1.status = "error" ∧ v.2.1 = st := by
  unfold RemoveBG.body at h
  rw [hres] at h
  repeat' split at h
  all_goals cases h
  all_goals first
    | exact ⟨rfl, rfl⟩
    | simp_all [asPath, truthy]

theorem removeObject_missing_image_body (env : Env) (st : St) (inputs config : Dict) (p : String)
    (v : Result × St × List Call)
    (hres : resolve inputs config "image_path" = Value.str p)
    (hex : pathExists st p = false)
    (h : RemoveObject.body env st inputs config = Except.ok v) :
    v.1.status = "error" ∧ v.2.1 = st := by
  unfold RemoveObject.body at h
  rw [hres] at h
  repeat' split at h
  all_goals cases h
  all_goals first
    | exact ⟨rfl, rfl⟩
    | simp_all [asPath, truthy]

theorem removeObject_missing_mask_body (env : Env) (st : St) (inputs config : Dict) (p : String)
    (v : Result × St × List Call)
    (hres : resolve inputs config "mask_path" = Value.str p)
    (hex : pathExists st p = false)
    (h : RemoveObject.body env st inputs config = Except.ok v) :
    v.1.status = "error" ∧ v.2.1 = st := by
  unfold RemoveObject.body at h
  rw [hres] at h
  repeat' split at h
  all_goals cases h
  all_goals first
    | exact ⟨rfl, rfl⟩
    | simp_all [asPath, truthy]

theorem autoCaption_missing_body (env : Env) (st : St) (inputs config : Dict) (p : String)
    (v : Result × St × List Call)
    (hres : resolve inputs config "image_path" = Value.str p)
    (hex : pathExists st p = false)
    (h : AutoCaption.body env st inputs config = Except.ok v) :
    v.1.status = "error" ∧ v.2.1 = st := by
  unfold AutoCaption.body at h
  rw [hres] at h
  repeat' split at h
  all_goals cases h
  all_goals first
    | exact ⟨rfl, rfl⟩
    | simp_all [asPath, truthy]

theorem trim_missing_body (env : Env) (st : St) (inputs config : Dict) (p : String)
    (v : Result × St × List Call)
    (hres : resolve inputs config "video_path" = Value.str p)
    (hex : pathExists st p = false)
    (h : Trim.body env st inputs config = Except.ok v) :
    v.1.status = "error" ∧ v.2.1 = st := by
  unfold Trim.body at h
  rw [hres] at h
  repeat' split at h
  all_goals cases h
  all_goals first
    | exact ⟨rfl, rfl⟩
    | simp_all [asPath, truthy]

theorem watermark_missing_body (env : Env) (st : St) (inputs config : Dict) (p : String)
    (v : Result × St × List Call)
    (hres : resolve inputs config "video_path" = Value.str p)
    (hex : pathExists st p = false)
    (h : Watermark.body env st inputs config = Except.ok v) :
    v.1.status = "error" ∧ v.2.1 = st := by
  unfold Watermark.body at h
  rw [hres] at h
  repeat' split at h
  all_goals cases h
  all_goals first
    | exact ⟨rfl, rfl⟩
    | simp_all [asPath, truthy]

theorem addBGM_missing_video_body (env : Env) (st : St) (inputs config : Dict) (p : String)
    (v : Result × St × List Call)
    (hres : Dict.get config "video_path" = Value.str p)
    (hex : pathExists st p = false)
    (h : AddBGM.body env st inputs config = Except.ok v) :
    v.1.status = "error" ∧ v.2.1 = st := by
  unfold AddBGM.body at h
  rw [hres] at h
  repeat' split at h
  all_goals cases h
  all_goals first
    | exact ⟨rfl, rfl⟩
    | simp_all [asPath, truthy]

theorem addBGM_missing_music_body (env : Env) (st : St) (inputs config : Dict) (p : String)
    (v : Result × St × List Call)
    (hres : Dict.get config "music_path" = Value.str p)
    (hex : pathExists st p = false)
    (h : AddBGM.body env st inputs config = Except.ok v) :
    v.1.status = "error" ∧ v.2.1 = st := by
  unfold AddBGM.body at h
  rw [hres] at h
  repeat' split at h
  all_goals cases h
  all_goals first
    | exact ⟨rfl, rfl⟩
    | simp_all [asPath, truthy]

theorem checkPaths_done (st : St) (l : List Value) (ps : List String)
    (h : Merge.checkPaths st l = Except.ok (MergeRes.done ps)) :
    ∀ w ∈ l, ∃ q, w = Value.str q ∧ pathExists st q = true ∧ hasVideoExt q = true := by
  induction l generalizing ps with
  | nil => intro w hw; cases hw
  | cons v rest ih =>
    intro w hw
    unfold Merge.checkPaths at h
    cases v
    case str s =>
      simp only [asPath] at h
      by_cases h1 : pathExists st s = true
      · by_cases h2 : hasVideoExt s = true
        · simp only [h1, h2, not_true, if_false, Bool.not_eq_true] at h
          cases hrest : Merge.checkPaths st rest with
          | error e => rw [hrest] at h; cases h
          | ok mr =>
            cases mr with
            | fail m => rw [hrest] at h; cases h
            | done ps' =>
              rw [hrest] at h
              cases h
              cases hw with
              | head => exact ⟨s, rfl, h1, h2⟩
              | tail _ hw' => exact ih ps' hrest w hw'
        · simp [h1, h2] at h
      · simp [h1] at h
    all_goals simp [asPath] at h

theorem merge_missing_body (env : Env) (st : St) (inputs config : Dict) (p : String)
    (v : Result × St × List Call)
    (hmem : p ∈ refPaths Handler.merge inputs config)
    (hex : pathExists st p = false)
    (h : Merge.body env st inputs config = Except.ok v) :
    v.1.status = "error" ∧ v.2.1 = st := by
  unfold refPaths at hmem
  unfold Merge.body at h
  cases hvp : Dict.get config "video_paths"
  case list l =>
    simp only [hvp] at hmem h
    rw [List.mem_flatten] at hmem
    obtain ⟨ss, hss, hpss⟩ := hmem
    rw [List.mem_map] at hss
    obtain ⟨w, hwl, hws⟩ := hss
    have hwp : w = Value.str p := strOf_mem (hws ▸ hpss)
    subst hwp
    by_cases hlen : l.length < 2
    · rw [if_pos hlen] at h
      cases h
      exact ⟨rfl, rfl⟩
    · rw [if_neg hlen] at h
      cases hcp : Merge.checkPaths st l with
      | error e => rw [hcp] at h; cases h
      | ok mr =>
        cases mr with
        | fail m =>
          rw [hcp] at h
          cases h
          exact ⟨rfl, rfl⟩
        | done ps =>
          exfalso
          obtain ⟨q, hq, hqex, _⟩ := checkPaths_done st l ps hcp (Value.str p) hwl
          cases hq
          rw [hqex] at hex
          cases hex
  all_goals simp only [hvp] at hmem; simp [strOf] at hmem

/-- C6: for every handler, if one of the input file paths the handler
requires (as the handler itself resolves them) does not exist on disk, then
`process` returns `{status: "error"}` and the filesystem is unchanged — no
output file is created by that call. -/
theorem C6_missing_input_file (h : Handler) (env : Env) (st : St) (inputs config : Dict)
    (p : String) (hmem : p ∈ refPaths h inputs config) (hex : pathExists st p = false) :
    (dispatch h env st inputs config).result.status = "error" ∧
    (dispatch h env st inputs config).st = st := by
  have hd : dispatch h env st inputs config = runProc st (bodyOf h env st inputs config) := by
    cases h <;> rfl
  rw [hd]
  refine runProc_cases st _ (fun r st' _ => r.status = "error" ∧ st' = st) ?_ (fun e => ⟨rfl, rfl⟩)
  intro v hv
  cases h
  case autoCaption =>
    simp only [refPaths] at hmem
    exact autoCaption_missing_body env st inputs config p v (strOf_mem hmem) hex hv
  case generateImage =>
    simp only [refPaths] at hmem
    exact absurd hmem (List.not_mem_nil p)
  case removeObject =>
    simp only [refPaths] at hmem
    rcases List.mem_append.mp hmem with hm | hm
    · exact removeObject_missing_image_body env st inputs config p v (strOf_mem hm) hex hv
    · exact removeObject_missing_mask_body env st inputs config p v (strOf_mem hm) hex hv
  case effectImage =>
    simp only [refPaths] at hmem
    exact effect_missing_body env st inputs config p v (strOf_mem hmem) hex hv
  case logoOverlay =>
    simp only [refPaths] at hmem
    rcases List.mem_append.mp hmem with hm | hm
    · exact logo_missing_image_body env st inputs config p v (strOf_mem hm) hex hv
    · exact logo_missing_logo_body env st inputs config p v (strOf_mem hm) hex hv
  case removeBG =>
    simp only [refPaths] at hmem
    exact removeBG_missing_body env st inputs config p v (strOf_mem hmem) hex hv
  case resizeImage =>
    simp only [refPaths] at hmem
    exact resize_missing_body env st inputs config p v (strOf_mem hmem) hex hv
  case textOverlay =>
    simp only [refPaths] at hmem
    exact textOverlay_missing_body env st inputs config p v (strOf_mem hmem) hex hv
  case addBGM =>
    simp only [refPaths] at hmem
    rcases List.mem_append.mp hmem with hm | hm
    · exact addBGM_missing_video_body env st inputs config p v (strOf_mem hm) hex hv
    · exact addBGM_missing_music_body env st inputs config p v (strOf_mem hm) hex hv
  case merge => exact merge_missing_body env st inputs config p v hmem hex hv
  case trim =>
    simp only [refPaths] at hmem
    exact trim_missing_body env st inputs config p v (strOf_mem hmem) hex hv
  case watermark =>
    simp only [refPaths] at hmem
    exact watermark_missing_body env st inputs config p v (strOf_mem hmem) hex hv

/-- Witness for C6: the effect handler on a missing `a.png` errors and
creates nothing. -/
theorem C6_missing_input_file_witness :
    (dispatch Handler.effectImage envW [] [("image_path", Value.str "a.png")] []).result.status
        = "error" ∧
    (dispatch Handler.effectImage envW [] [("image_path", Value.str "a.png")] []).st = [] :=
  C6_missing_input_file Handler.effectImage envW [] [("image_path", Value.str "a.png")] []
    "a.png" (by decide) (by decide)

theorem effect_badext_body (env : Env) (st : St) (inputs config : Dict) (p : String)
    (v : Result × St × List Call)
    (hres : resolve inputs config "image_path" = Value.str p)
    (hbad : hasImageExt p = false)
    (h : EffectImage.body env st inputs config = Except.ok v) :
    v.1.status = "error" ∧ v.2.1 = st ∧ v.2.2 = [] := by
  unfold EffectImage.body at h
  rw [hres] at h
  repeat' split at h
  all_goals cases h
  all_goals first
    | exact ⟨rfl, rfl, rfl⟩
    | simp_all [asPath, truthy]

theorem resize_badext_body (env : Env) (st : St) (inputs config : Dict) (p : String)
    (v : Result × St × List Call)
    (hres : resolve inputs config "image_path" = Value.str p)
    (hbad : hasImageExt p = false)
    (h : ResizeImage.body env st inputs config = Except.ok v) :
    v.1.status = "error" ∧ v.2.1 = st ∧ v.2.2 = [] := by
  unfold ResizeImage.body at h
  rw [hres] at h
  repeat' split at h
  all_goals cases h
  all_goals first
    | exact ⟨rfl, rfl, rfl⟩
    | simp_all [asPath, truthy]

theorem textOverlay_badext_body (env : Env) (st : St) (inputs config : Dict) (p : String)
    (v : Result × St × List Call)
    (hres : resolve inputs config "image_path" = Value.str p)
    (hbad : hasImageExt p = false)
    (h : TextOverlay.body env st inputs config = Except.ok v) :
    v.1.status = "error" ∧ v.2.1 = st ∧ v.2.2 = [] := by
  unfold TextOverlay.body at h
  rw [hres] at h
  repeat' split at h
  all_goals cases h
  all_goals first
    | exact ⟨rfl, rfl, rfl⟩
    | simp_all [asPath, truthy]

theorem logo_badext_image_body (env : Env) (st : St) (inputs config : Dict) (p : String)
    (v : Result × St × List Call)
    (hres : resolve inputs config "image_path" = Value.str p)
    (hbad : hasImageExt p = false)
    (h : LogoOverlay.body env st inputs config = Except.ok v) :
    v.1.status = "error" ∧ v.2.1 = st ∧ v.2.2 = [] := by
  unfold LogoOverlay.body at h
  rw [hres] at h
  repeat' split at h
  all_goals cases h
  all_goals first
    | exact ⟨rfl, rfl, rfl⟩
    | simp_all [asPath, truthy]

theorem logo_badext_logo_body (env : Env) (st : St) (inputs config : Dict) (p : String)
    (v : Result × St × List Call)
    (hres : resolve inputs config "logo_path" = Value.str p)
    (hbad : hasImageExt p = false)
    (h : LogoOverlay.body env st inputs config = Except.ok v) :
    v.1.status = "error" ∧ v.2.1 = st ∧ v.2.2 = [] := by
  unfold LogoOverlay.body at h
  rw [hres] at h
  repeat' split at h
  all_goals cases h
  all_goals first
    | exact ⟨rfl, rfl, rfl⟩
    | simp_all [asPath, truthy]

theorem trim_badext_body (env : Env) (st : St) (inputs config : Dict) (p : String)
    (v : Result × St × List Call)
    (hres : resolve inputs config "video_path" = Value.str p)
    (hbad : hasVideoExt p = false)
    (h : Trim.body env st inputs config = Except.ok v) :
    v.1.status = "error" ∧ v.2.1 = st ∧ v.2.2 = [] := by
  unfold Trim.body at h
  rw [hres] at h
  repeat' split at h
  all_goals cases h
  all_goals first
    | exact ⟨rfl, rfl, rfl⟩
    | simp_all [asPath, truthy]

theorem watermark_badext_body (env : Env) (st : St) (inputs config : Dict) (p : String)
    (v : Result × St × List Call)
    (hres : resolve inputs config "video_path" = Value.str p)
    (hbad : hasVideoExt p = false)
    (h : Watermark.body env st inputs config = Except.ok v) :
    v.1.status = "error" ∧ v.2.1 = st ∧ v.2.2 = [] := by
  unfold Watermark.body at h
  rw [hres] at h
  repeat' split at h
  all_goals cases h
  all_goals first
    | exact ⟨rfl, rfl, rfl⟩
    | simp_all [asPath, truthy]

theorem addBGM_badext_video_body (env : Env) (st : St) (inputs config : Dict) (p : String)
    (v : Result × St × List Call)
    (hres : Dict.get config "video_path" = Value.str p)
    (hbad : hasVideoExt p = false)
    (h : AddBGM.body env st inputs config = Except.ok v) :
    v.1.status = "error" ∧ v.2.1 = st ∧ v.2.2 = [] := by
  unfold AddBGM.body at h
  rw [hres] at h
  repeat' split at h
  all_goals cases h
  all_goals first
    | exact ⟨rfl, rfl, rfl⟩
    | simp_all [asPath, truthy]

theorem addBGM_badext_music_body (env : Env) (st : St) (inputs config : Dict) (p : String)
    (v : Result × St × List Call)
    (hres : Dict.get config "music_path" = Value.str p)
    (hbad : hasAudioExt p = false)
    (h : AddBGM.body env st inputs config = Except.ok v) :
    v.1.status = "error" ∧ v.2.1 = st ∧ v.2.2 = [] := by
  unfold AddBGM.body at h
  rw [hres] at h
  repeat' split at h
  all_goals cases h
  all_goals first
    | exact ⟨rfl, rfl, rfl⟩
    | simp_all [asPath, truthy]

theorem merge_badext_body (env : Env) (st : St) (inputs config : Dict) (p : String)
    (v : Result × St × List Call)
    (hmem : (p, MediaKind.video) ∈ extChecks Handler.merge inputs config)
    (hbad : hasVideoExt p = false)
    (h : Merge.body env st inputs config = Except.ok v) :
    v.1.status = "error" ∧ v.2.1 = st ∧ v.2.2 = [] := by
  unfold extChecks at hmem
  unfold Merge.body at h
  cases hvp : Dict.get config "video_paths"
  case list l =>
    simp only [hvp] at hmem h
    rw [List.mem_map] at hmem
    obtain ⟨q, hqmem, hqp⟩ := hmem
    obtain ⟨hqp, -⟩ := Prod.mk.injEq .. ▸ hqp
    rw [List.mem_flatten] at hqmem
    obtain ⟨ss, hss, hpss⟩ := hqmem
    rw [List.mem_map] at hss
    obtain ⟨w, hwl, hws⟩ := hss
    have hwp : w = Value.str q := strOf_mem (hws ▸ hpss)
    subst hwp
    subst hqp
    by_cases hlen : l.length < 2
    · rw [if_pos hlen] at h
      cases h
      exact ⟨rfl, rfl, rfl⟩
    · rw [if_neg hlen] at h
      cases hcp : Merge.checkPaths st l with
      | error e => rw [hcp] at h; cases h
      | ok mr =>
        cases mr with
        | fail m =>
          rw [hcp] at h
          cases h
          exact ⟨rfl, rfl, rfl⟩
        | done ps =>
          exfalso
          obtain ⟨q', hq', hex', hext'⟩ := checkPaths_done st l ps hcp (Value.str q) hwl
          cases hq'
          rw [hext'] at hbad
          cases hbad
  all_goals simp only [hvp] at hmem; simp [strOf] at hmem

/-- C3 (amended): for every handler that declares an extension allow-list
check (EffectImage, LogoOverlay, ResizeImage, TextOverlay, AddBGM, Merge,
Trim, Watermark — i.e. every check recorded in `extChecks`), a referenced
file whose extension fails the corresponding allow-list makes `process`
return `{status: "error"}` with no external delegate invoked and no file
written, whether or not the file exists.  (RemoveBG, RemoveObject and
AutoCaption declare no extension check — see the counterexample.) -/
theorem C3_ext_allowlist_blocks (h : Handler) (env : Env) (st : St) (inputs config : Dict)
    (p : String) (k : MediaKind)
    (hmem : (p, k) ∈ extChecks h inputs config)
    (hbad : allowExt k p = false) :
    (dispatch h env st inputs config).result.status = "error" ∧
    (dispatch h env st inputs config).st = st ∧
    (dispatch h env st inputs config).calls = [] := by
  have hd : dispatch h env st inputs config = runProc st (bodyOf h env st inputs config) := by
    cases h <;> rfl
  rw [hd]
  refine runProc_cases st _ (fun r st' cs => r.status = "error" ∧ st' = st ∧ cs = []) ?_
    (fun e => ⟨rfl, rfl, rfl⟩)
  intro v hv
  cases h
  case effectImage =>
    simp only [extChecks, List.mem_map] at hmem
    obtain ⟨q, hq, hqe⟩ := hmem
    obtain ⟨h1, h2⟩ := Prod.mk.injEq .. ▸ hqe
    subst h1; subst h2
    exact effect_badext_body env st inputs config q v (strOf_mem hq) hbad hv
  case resizeImage =>
    simp only [extChecks, List.mem_map] at hmem
    obtain ⟨q, hq, hqe⟩ := hmem
    obtain ⟨h1, h2⟩ := Prod.mk.injEq .. ▸ hqe
    subst h1; subst h2
    exact resize_badext_body env st inputs config q v (strOf_mem hq) hbad hv
  case textOverlay =>
    simp only [extChecks, List.mem_map] at hmem
    obtain ⟨q, hq, hqe⟩ := hmem
    obtain ⟨h1, h2⟩ := Prod.mk.injEq .. ▸ hqe
    subst h1; subst h2
    exact textOverlay_badext_body env st inputs config q v (strOf_mem hq) hbad hv
  case logoOverlay =>
    simp only [extChecks, List.mem_append, List.mem_map] at hmem
    rcases hmem with ⟨q, hq, hqe⟩ | ⟨q, hq, hqe⟩ <;>
      (obtain ⟨h1, h2⟩ := Prod.mk.injEq .. ▸ hqe; subst h1; subst h2)
    · exact logo_badext_image_body env st inputs config q v (strOf_mem hq) hbad hv
    · exact logo_badext_logo_body env st inputs config q v (strOf_mem hq) hbad hv
  case addBGM =>
    simp only [extChecks, List.mem_append, List.mem_map] at hmem
    rcases hmem with ⟨q, hq, hqe⟩ | ⟨q, hq, hqe⟩ <;>
      (obtain ⟨h1, h2⟩ := Prod.mk.injEq .. ▸ hqe; subst h1; subst h2)
    · exact addBGM_badext_video_body env st inputs config q v (strOf_mem hq) hbad hv
    · exact addBGM_badext_music_body env st inputs config q v (strOf_mem hq) hbad hv
  case merge =>
    have : k = MediaKind.video := by
      unfold extChecks at hmem
      cases hvp : Dict.get config "video_paths" <;> simp only [hvp] at hmem <;>
        first
          | (rw [List.mem_map] at hmem; obtain ⟨q, -, hqe⟩ := hmem;
             exact (Prod.mk.injEq .. ▸ hqe).2.symm)
          | simp at hmem
    subst this
    exact merge_badext_body env st inputs config p v hmem hbad hv
  case trim =>
    simp only [extChecks, List.mem_map] at hmem
    obtain ⟨q, hq, hqe⟩ := hmem
    obtain ⟨h1, h2⟩ := Prod.mk.injEq .. ▸ hqe
    subst h1; subst h2
    exact trim_badext_body env st inputs config q v (strOf_mem hq) hbad hv
  case watermark =>
    simp only [extChecks, List.mem_map] at hmem
    obtain ⟨q, hq, hqe⟩ := hmem
    obtain ⟨h1, h2⟩ := Prod.mk.injEq .. ▸ hqe
    subst h1; subst h2
    exact watermark_badext_body env st inputs config q v (strOf_mem hq) hbad hv
  all_goals simp [extChecks] at hmem

/-- Witness for C3: the effect handler rejects an existing `.webp` image
without calling the delegate. -/
theorem C3_ext_allowlist_blocks_witness :
    (dispatch Handler.effectImage envW ["a.webp"]
        [("image_path", Value.str "a.webp")] []).result.status = "error" ∧
    (dispatch Handler.effectImage envW ["a.webp"]
        [("image_path", Value.str "a.webp")] []).st = ["a.webp"] ∧
    (dispatch Handler.effectImage envW ["a.webp"]
        [("image_path", Value.str "a.webp")] []).calls = [] :=
  C3_ext_allowlist_blocks Handler.effectImage envW ["a.webp"]
    [("image_path", Value.str "a.webp")] [] "a.webp" MediaKind.image (by decide) (by decide)

/-- Counterexample for C3 as stated: RemoveBG takes an image path, the file
`img.webp` exists with an extension outside the image allow-list, yet
`process` invokes the external `rembg.remove` delegate and returns success
rather than an error. -/
theorem C3_counterexample_removeBG :
    hasImageExt "img.webp" = false ∧
    pathExists ["img.webp"] "img.webp" = true ∧
    (dispatch Handler.removeBG envW ["img.webp"]
        [("image_path", Value.str "img.webp")] []).result.status = "success" ∧
    (Call.mk "rembg.remove" "img.webp" 0 0 0) ∈
      (dispatch Handler.removeBG envW ["img.webp"]
        [("image_path", Value.str "img.webp")] []).calls :=
  ⟨by decide, by decide, by decide, by decide⟩

theorem effect_success_body (env : Env) (st : St) (inputs config : Dict)
    (v : Result × St × List Call)
    (h : EffectImage.body env st inputs config = Except.ok v)
    (hs : v.1.status = "success") :
    ∃ o name, v.1.outputs = some o ∧
      Dict.get o "output_path" = Value.str (ospJoin "output" name) ∧
      pathExists v.2.1 (ospJoin "output" name) = true := by
  unfold EffectImage.body finishWrite finishCheck at h
  repeat' split at h
  all_goals cases h
  all_goals try simp [Result.mkError] at hs
  all_goals refine ⟨_, _, rfl, rfl, ?_⟩
  all_goals simp_all

theorem resize_success_body (env : Env) (st : St) (inputs config : Dict)
    (v : Result × St × List Call)
    (h : ResizeImage.body env st inputs config = Except.ok v)
    (hs : v.1.status = "success") :
    ∃ o name, v.1.outputs = some o ∧
      Dict.get o "output_path" = Value.str (ospJoin "output" name) ∧
      pathExists v.2.1 (ospJoin "output" name) = true := by
  unfold ResizeImage.body finishWrite finishCheck at h
  repeat' split at h
  all_goals cases h
  all_goals try simp [Result.mkError] at hs
  all_goals refine ⟨_, _, rfl, rfl, ?_⟩
  all_goals simp_all

theorem textOverlay_success_body (env : Env) (st : St) (inputs config : Dict)
    (v : Result × St × List Call)
    (h : TextOverlay.body env st inputs config = Except.ok v)
    (hs : v.1.status = "success") :
    ∃ o name, v.1.outputs = some o ∧
      Dict.get o "output_path" = Value.str (ospJoin "output" name) ∧
      pathExists v.2.1 (ospJoin "output" name) = true := by
  unfold TextOverlay.body finishWrite finishCheck at h
  repeat' split at h
  all_goals cases h
  all_goals try simp [Result.mkError] at hs
  all_goals refine ⟨_, _, rfl, rfl, ?_⟩
  all_goals simp_all

theorem logo_success_body (env : Env) (st : St) (inputs config : Dict)
    (v : Result × St × List Call)
    (h : LogoOverlay.body env st inputs config = Except.ok v)
    (hs : v.1.status = "success") :
    ∃ o name, v.1.outputs = some o ∧
      Dict.get o "output_path" = Value.str (ospJoin "output" name) ∧
      pathExists v.2.1 (ospJoin "output" name) = true := by
  unfold LogoOverlay.body finishWrite finishCheck at h
  repeat' split at h
  all_goals cases h
  all_goals try simp [Result.mkError] at hs
  all_goals refine ⟨_, _, rfl, rfl, ?_⟩
  all_goals simp_all

theorem removeBG_success_body (env : Env) (st : St) (inputs config : Dict)
    (v : Result × St × List Call)
    (h : RemoveBG.body env st inputs config = Except.ok v)
    (hs : v.1.status = "success") :
    ∃ o name, v.1.outputs = some o ∧
      Dict.get o "output_path" = Value.str (ospJoin "output" name) ∧
      pathExists v.2.1 (ospJoin "output" name) = true := by
  unfold RemoveBG.body at h
  repeat' split at h
  all_goals cases h
  all_goals try simp [Result.mkError] at hs
  all_goals refine ⟨_, _, rfl, rfl, ?_⟩
  all_goals simp_all [pathExists, List.contains]

theorem removeObject_success_body (env : Env) (st : St) (inputs config : Dict)
    (v : Result × St × List Call)
    (h : RemoveObject.body env st inputs config = Except.ok v)
    (hs : v.1.status = "success") :
    ∃ o name, v.1.outputs = some o ∧
      Dict.get o "output_path" = Value.str (ospJoin "output" name) ∧
      pathExists v.2.1 (ospJoin "output" name) = true := by
  unfold RemoveObject.body at h
  repeat' split at h
  all_goals cases h
  all_goals try simp [Result.mkError] at hs
  all_goals refine ⟨_, _, rfl, rfl, ?_⟩
  all_goals simp_all [pathExists, List.contains]

theorem generateImage_success_body (env : Env) (st : St) (inputs config : Dict)
    (v : Result × St × List Call)
    (h : GenerateImage.body env st inputs config = Except.ok v)
    (hs : v.1.status = "success") :
    ∃ o name, v.1.outputs = some o ∧
      Dict.get o "output_path" = Value.str (ospJoin "output" name) ∧
      pathExists v.2.1 (ospJoin "output" name) = true := by
  unfold GenerateImage.body at h
  repeat' split at h
  all_goals cases h
  all_goals try simp [Result.mkError] at hs
  all_goals refine ⟨_, _, rfl, rfl, ?_⟩
  all_goals simp_all [pathExists, List.contains]

theorem addBGM_success_body (env : Env) (st : St) (inputs config : Dict)
    (v : Result × St × List Call)
    (h : AddBGM.body env st inputs config = Except.ok v)
    (hs : v.1.status = "success") :
    ∃ o name, v.1.outputs = some o ∧
      Dict.get o "output_path" = Value.str (ospJoin "output" name) ∧
      pathExists v.2.1 (ospJoin "output" name) = true := by
  unfold AddBGM.body finishWrite finishCheck at h
  repeat' split at h
  all_goals cases h
  all_goals try simp [Result.mkError] at hs
  all_goals refine ⟨_, _, rfl, rfl, ?_⟩
  all_goals simp_all

theorem merge_success_body (env : Env) (st : St) (inputs config : Dict)
    (v : Result × St × List Call)
    (h : Merge.body env st inputs config = Except.ok v)
    (hs : v.1.status = "success") :
    ∃ o name, v.1.outputs = some o ∧
      Dict.get o "output_path" = Value.str (ospJoin "output" name) ∧
      pathExists v.2.1 (ospJoin "output" name) = true := by
  unfold Merge.body finishWrite finishCheck at h
  repeat' split at h
  all_goals cases h
  all_goals try simp [Result.mkError] at hs
  all_goals refine ⟨_, _, rfl, rfl, ?_⟩
  all_goals simp_all

theorem trim_success_body (env : Env) (st : St) (inputs config : Dict)
    (v : Result × St × List Call)
    (h : Trim.body env st inputs config = Except.ok v)
    (hs : v.1.status = "success") :
    ∃ o name, v.1.outputs = some o ∧
      Dict.get o "output_path" = Value.str (ospJoin "output" name) ∧
      pathExists v.2.1 (ospJoin "output" name) = true := by
  unfold Trim.body finishCheck at h
  repeat' split at h
  all_goals cases h
  all_goals try simp [Result.mkError] at hs
  all_goals refine ⟨_, _, rfl, rfl, ?_⟩
  all_goals simp_all

theorem watermark_success_body (env : Env) (st : St) (inputs config : Dict)
    (v : Result × St × List Call)
    (h : Watermark.body env st inputs config = Except.ok v)
    (hs : v.1.status = "success") :
    ∃ o name, v.1.outputs = some o ∧
      Dict.get o "output_path" = Value.str (ospJoin "output" name) ∧
      pathExists v.2.1 (ospJoin "output" name) = true := by
  unfold Watermark.body finishCheck at h
  repeat' split at h
  all_goals cases h
  all_goals try simp [Result.mkError] at hs
  all_goals refine ⟨_, _, rfl, rfl, ?_⟩
  all_goals simp_all

/-- C5 (amended): for every handler except AutoCaption, a successful call has
created an output file under the output directory: the returned outputs
mapping carries `output_path = "output/" ++ name` (the freshly generated
unique name) and that file exists in the resulting filesystem.  (AutoCaption
succeeds without writing any file — see the counterexample.) -/
theorem C5_success_writes_file (h : Handler) (env : Env) (st : St) (inputs config : Dict)
    (hne : h ≠ Handler.autoCaption)
    (hs : (dispatch h env st inputs config).result.status = "success") :
    ∃ o name, (dispatch h env st inputs config).result.outputs = some o ∧
      Dict.get o "output_path" = Value.str (ospJoin "output" name) ∧
      pathExists (dispatch h env st inputs config).st (ospJoin "output" name) = true := by
  have hd : dispatch h env st inputs config = runProc st (bodyOf h env st inputs config) := by
    cases h <;> rfl
  rw [hd] at hs ⊢
  refine runProc_cases st (bodyOf h env st inputs config)
    (fun r st' _ => r.status = "success" →
      ∃ o name, r.outputs = some o ∧
        Dict.get o "output_path" = Value.str (ospJoin "output" name) ∧
        pathExists st' (ospJoin "output" name) = true) ?_ ?_ hs
  · intro v hv hsv
    cases h
    case autoCaption => exact absurd rfl hne
    case generateImage => exact generateImage_success_body env st inputs config v hv hsv
    case removeObject => exact removeObject_success_body env st inputs config v hv hsv
    case effectImage => exact effect_success_body env st inputs config v hv hsv
    case logoOverlay => exact logo_success_body env st inputs config v hv hsv
    case removeBG => exact removeBG_success_body env st inputs config v hv hsv
    case resizeImage => exact resize_success_body env st inputs config v hv hsv
    case textOverlay => exact textOverlay_success_body env st inputs config v hv hsv
    case addBGM => exact addBGM_success_body env st inputs config v hv hsv
    case merge => exact merge_success_body env st inputs config v hv hsv
    case trim => exact trim_success_body env st inputs config v hv hsv
    case watermark => exact watermark_success_body env st inputs config v hv hsv
  · intro e hse
    simp [Result.mkError] at hse

/-- Witness for C5: a concrete successful effect call yields an existing
`output/...` file recorded under `output_path`. -/
theorem C5_success_writes_file_witness :
    ∃ o name,
      (dispatch Handler.effectImage envW ["a.png"]
          [("image_path", Value.str "a.png")] []).result.outputs = some o ∧
      Dict.get o "output_path" = Value.str (ospJoin "output" name) ∧
      pathExists (dispatch Handler.effectImage envW ["a.png"]
          [("image_path", Value.str "a.png")] []).st (ospJoin "output" name) = true :=
  C5_success_writes_file Handler.effectImage envW ["a.png"]
    [("image_path", Value.str "a.png")] [] (by decide) (by decide)

/-- Counterexample for C5 as stated: AutoCaption succeeds while writing no
file — the filesystem is unchanged and the outputs mapping carries only the
caption, no `output_path`. -/
theorem C5_counterexample_autoCaption :
    (dispatch Handler.autoCaption envW ["a.jpg"]
        [("image_path", Value.str "a.jpg")] []).result.status = "success" ∧
    (dispatch Handler.autoCaption envW ["a.jpg"]
        [("image_path", Value.str "a.jpg")] []).result.outputs
        = some [("caption", Value.str "a cat")] ∧
    (dispatch Handler.autoCaption envW ["a.jpg"]
        [("image_path", Value.str "a.jpg")] []).st = ["a.jpg"] ∧
    Dict.get [("caption", Value.str "a cat")] "output_path" = Value.none :=
  ⟨by decide, by rfl, by rfl, by rfl⟩

theorem find?_set_ne (c : Dict) (k k' : String) (v : Value) (h : (k == k') = false) :
    List.find? (fun kv => kv.1 == k') (Dict.set c k v) = List.find? (fun kv => kv.1 == k') c := by
  simp [Dict.set, List.find?, h]

theorem get_set_ne (c : Dict) (k k' : String) (v : Value) (h : (k == k') = false) :
    Dict.get (Dict.set c k v) k' = Dict.get c k' := by
  unfold Dict.get
  rw [find?_set_ne c k k' v h]

theorem getD_set_ne (c : Dict) (k k' : String) (v d : Value) (h : (k == k') = false) :
    Dict.getD (Dict.set c k v) k' d = Dict.getD c k' d := by
  unfold Dict.getD
  rw [find?_set_ne c k k' v h]

theorem resolve_set_self (inputs c : Dict) (k : String) (v : Value)
    (h : truthy (Dict.get inputs k) = true) :
    resolve inputs (Dict.set c k v) k = resolve inputs c k := by
  simp [resolve, h]

theorem resolve_set_ne (inputs c : Dict) (k k' : String) (v : Value) (h : (k == k') = false) :
    resolve inputs (Dict.set c k v) k' = resolve inputs c k' := by
  unfold resolve
  rw [get_set_ne c k k' v h]

theorem effect_shadow (env : Env) (st : St) (inputs config : Dict) (v : Value)
    (ht : truthy (Dict.get inputs "image_path") = true) :
    EffectImage.process env st inputs (Dict.set config "image_path" v) =
      EffectImage.process env st inputs config := by
  unfold EffectImage.process EffectImage.body
  rw [resolve_set_self inputs config "image_path" v ht,
    getD_set_ne config "image_path" "intensity" v (Value.num 1) (by decide),
    getD_set_ne config "image_path" "effect" v (Value.str "grayscale") (by decide)]

theorem resize_shadow (env : Env) (st : St) (inputs config : Dict) (v : Value)
    (ht : truthy (Dict.get inputs "image_path") = true) :
    ResizeImage.process env st inputs (Dict.set config "image_path" v) =
      ResizeImage.process env st inputs config := by
  unfold ResizeImage.process ResizeImage.body
  rw [resolve_set_self inputs config "image_path" v ht,
    get_set_ne config "image_path" "width" v (by decide),
    get_set_ne config "image_path" "height" v (by decide)]

theorem textOverlay_shadow (env : Env) (st : St) (inputs config : Dict) (v : Value)
    (ht : truthy (Dict.get inputs "image_path") = true) :
    TextOverlay.process env st inputs (Dict.set config "image_path" v) =
      TextOverlay.process env st inputs config := by
  unfold TextOverlay.process TextOverlay.body
  rw [resolve_set_self inputs config "image_path" v ht,
    getD_set_ne config "image_path" "font_size" v (Value.num 40) (by decide),
    getD_set_ne config "image_path" "offset" v (Value.pair 0 0) (by decide),
    getD_set_ne config "image_path" "opacity" v (Value.num 1) (by decide),
    getD_set_ne config "image_path" "text" v (Value.str "Sample Text") (by decide),
    getD_set_ne config "image_path" "font_name" v (Value.str "DejaVuSans-Bold.ttf") (by decide),
    getD_set_ne config "image_path" "color" v (Value.str "white") (by decide),
    getD_set_ne config "image_path" "position" v (Value.str "center") (by decide),
    get_set_ne config "image_path" "bg_color" v (by decide)]

theorem logo_shadow_image (env : Env) (st : St) (inputs config : Dict) (v : Value)
    (ht : truthy (Dict.get inputs "image_path") = true) :
    LogoOverlay.process env st inputs (Dict.set config "image_path" v) =
      LogoOverlay.process env st inputs config := by
  unfold LogoOverlay.process LogoOverlay.body
  rw [resolve_set_self inputs config "image_path" v ht,
    resolve_set_ne inputs config "image_path" "logo_path" v (by decide),
    getD_set_ne config "image_path" "offset" v (Value.pair 0 0) (by decide),
    getD_set_ne config "image_path" "logo_scale" v (Value.num 1) (by decide),
    getD_set_ne config "image_path" "opacity" v (Value.num 1) (by decide),
    getD_set_ne config "image_path" "position" v (Value.str "bottom_right") (by decide)]

theorem logo_shadow_logo (env : Env) (st : St) (inputs config : Dict) (v : Value)
    (ht : truthy (Dict.get inputs "logo_path") = true) :
    LogoOverlay.process env st inputs (Dict.set config "logo_path" v) =
      LogoOverlay.process env st inputs config := by
  unfold LogoOverlay.process LogoOverlay.body
  rw [resolve_set_self inputs config "logo_path" v ht,
    resolve_set_ne inputs config "logo_path" "image_path" v (by decide),
    getD_set_ne config "logo_path" "offset" v (Value.pair 0 0) (by decide),
    getD_set_ne config "logo_path" "logo_scale" v (Value.num 1) (by decide),
    getD_set_ne config "logo_path" "opacity" v (Value.num 1) (by decide),
    getD_set_ne config "logo_path" "position" v (Value.str "bottom_right") (by decide)]

theorem removeBG_shadow (env : Env) (st : St) (inputs config : Dict) (v : Value)
    (ht : truthy (Dict.get inputs "image_path") = true) :
    RemoveBG.process env st inputs (Dict.set config "image_path" v) =
      RemoveBG.process env st inputs config := by
  unfold RemoveBG.process RemoveBG.body
  rw [resolve_set_self inputs config "image_path" v ht]

theorem removeObject_shadow_image (env : Env) (st : St) (inputs config : Dict) (v : Value)
    (ht : truthy (Dict.get inputs "image_path") = true) :
    RemoveObject.process env st inputs (Dict.set config "image_path" v) =
      RemoveObject.process env st inputs config := by
  unfold RemoveObject.process RemoveObject.body
  rw [resolve_set_self inputs config "image_path" v ht,
    resolve_set_ne inputs config "image_path" "mask_path" v (by decide)]

theorem removeObject_shadow_mask (env : Env) (st : St) (inputs config : Dict) (v : Value)
    (ht : truthy (Dict.get inputs "mask_path") = true) :
    RemoveObject.process env st inputs (Dict.set config "mask_path" v) =
      RemoveObject.process env st inputs config := by
  unfold RemoveObject.process RemoveObject.body
  rw [resolve_set_self inputs config "mask_path" v ht,
    resolve_set_ne inputs config "mask_path" "image_path" v (by decide)]

theorem autoCaption_shadow (env : Env) (st : St) (inputs config : Dict) (v : Value)
    (ht : truthy (Dict.get inputs "image_path") = true) :
    AutoCaption.process env st inputs (Dict.set config "image_path" v) =
      AutoCaption.process env st inputs config := by
  unfold AutoCaption.process AutoCaption.body
  rw [resolve_set_self inputs config "image_path" v ht]

theorem generate_shadow_prompt (env : Env) (st : St) (inputs config : Dict) (v : Value)
    (ht : truthy (Dict.get inputs "prompt") = true) :
    GenerateImage.process env st inputs (Dict.set config "prompt" v) =
      GenerateImage.process env st inputs config := by
  unfold GenerateImage.process GenerateImage.body GenerateImage.apiKeyOf
  rw [resolve_set_self inputs config "prompt" v ht,
    get_set_ne config "prompt" "api_key" v (by decide)]

theorem generate_shadow_api_key (env : Env) (st : St) (inputs config : Dict) (v : Value)
    (ht : truthy (Dict.get inputs "api_key") = true) :
    GenerateImage.process env st inputs (Dict.set config "api_key" v) =
      GenerateImage.process env st inputs config := by
  unfold GenerateImage.process GenerateImage.body GenerateImage.apiKeyOf
  rw [resolve_set_ne inputs config "api_key" "prompt" v (by decide)]
  simp only [ht, if_true]

theorem trim_shadow (env : Env) (st : St) (inputs config : Dict) (v : Value)
    (ht : truthy (Dict.get inputs "video_path") = true) :
    Trim.process env st inputs (Dict.set config "video_path" v) =
      Trim.process env st inputs config := by
  unfold Trim.process Trim.body
  rw [resolve_set_self inputs config "video_path" v ht,
    getD_set_ne config "video_path" "start_time" v (Value.num 0) (by decide),
    get_set_ne config "video_path" "end_time" v (by decide)]

theorem watermark_shadow (env : Env) (st : St) (inputs config : Dict) (v : Value)
    (ht : truthy (Dict.get inputs "video_path") = true) :
    Watermark.process env st inputs (Dict.set config "video_path" v) =
      Watermark.process env st inputs config := by
  unfold Watermark.process Watermark.body
  rw [resolve_set_self inputs config "video_path" v ht,
    getD_set_ne config "video_path" "start_time" v (Value.num 0) (by decide),
    get_set_ne config "video_path" "end_time" v (by decide),
    getD_set_ne config "video_path" "watermark_text" v (Value.str "") (by decide),
    getD_set_ne config "video_path" "subtitles_json" v (Value.str "[]") (by decide)]

/-- C2 (amended): for every handler except Merge and AddBGM, each documented
`inputs` key is resolved inputs-first: when `inputs` holds a truthy value
under the key, the value stored under the same key in `config` is irrelevant
to the whole call.  Merge and AddBGM, however, never consult `inputs` at all:
Merge reads `video_paths` and AddBGM reads `video_path`/`music_path` from
`config` only, so for them a value in `inputs` is ignored rather than
preferred. -/
theorem C2_inputs_precedence :
    (∀ (env : Env) (st : St) (i c : Dict) (v : Value), truthy (Dict.get i "image_path") = true →
      EffectImage.process env st i (Dict.set c "image_path" v) = EffectImage.process env st i c) ∧
    (∀ (env : Env) (st : St) (i c : Dict) (v : Value), truthy (Dict.get i "image_path") = true →
      ResizeImage.process env st i (Dict.set c "image_path" v) = ResizeImage.process env st i c) ∧
    (∀ (env : Env) (st : St) (i c : Dict) (v : Value), truthy (Dict.get i "image_path") = true →
      TextOverlay.process env st i (Dict.set c "image_path" v) = TextOverlay.process env st i c) ∧
    (∀ (env : Env) (st : St) (i c : Dict) (v : Value), truthy (Dict.get i "image_path") = true →
      LogoOverlay.process env st i (Dict.set c "image_path" v) = LogoOverlay.process env st i c) ∧
    (∀ (env : Env) (st : St) (i c : Dict) (v : Value), truthy (Dict.get i "logo_path") = true →
      LogoOverlay.process env st i (Dict.set c "logo_path" v) = LogoOverlay.process env st i c) ∧
    (∀ (env : Env) (st : St) (i c : Dict) (v : Value), truthy (Dict.get i "image_path") = true →
      RemoveBG.process env st i (Dict.set c "image_path" v) = RemoveBG.process env st i c) ∧
    (∀ (env : Env) (st : St) (i c : Dict) (v : Value), truthy (Dict.get i "image_path") = true →
      RemoveObject.process env st i (Dict.set c "image_path" v) = RemoveObject.process env st i c) ∧
    (∀ (env : Env) (st : St) (i c : Dict) (v : Value), truthy (Dict.get i "mask_path") = true →
      RemoveObject.process env st i (Dict.set c "mask_path" v) = RemoveObject.process env st i c) ∧
    (∀ (env : Env) (st : St) (i c : Dict) (v : Value), truthy (Dict.get i "image_path") = true →
      AutoCaption.process env st i (Dict.set c "image_path" v) = AutoCaption.process env st i c) ∧
    (∀ (env : Env) (st : St) (i c : Dict) (v : Value), truthy (Dict.get i "prompt") = true →
      GenerateImage.process env st i (Dict.set c "prompt" v) = GenerateImage.process env st i c) ∧
    (∀ (env : Env) (st : St) (i c : Dict) (v : Value), truthy (Dict.get i "api_key") = true →
      GenerateImage.process env st i (Dict.set c "api_key" v) = GenerateImage.process env st i c) ∧
    (∀ (env : Env) (st : St) (i c : Dict) (v : Value), truthy (Dict.get i "video_path") = true →
      Trim.process env st i (Dict.set c "video_path" v) = Trim.process env st i c) ∧
    (∀ (env : Env) (st : St) (i c : Dict) (v : Value), truthy (Dict.get i "video_path") = true →
      Watermark.process env st i (Dict.set c "video_path" v) = Watermark.process env st i c) ∧
    (∀ (env : Env) (st : St) (i i' c : Dict),
      Merge.process env st i c = Merge.process env st i' c) ∧
    (∀ (env : Env) (st : St) (i i' c : Dict),
      AddBGM.process env st i c = AddBGM.process env st i' c) :=
  ⟨effect_shadow, resize_shadow, textOverlay_shadow, logo_shadow_image, logo_shadow_logo,
    removeBG_shadow, removeObject_shadow_image, removeObject_shadow_mask, autoCaption_shadow,
    generate_shadow_prompt, generate_shadow_api_key, trim_shadow, watermark_shadow,
    fun _ _ _ _ _ => rfl, fun _ _ _ _ _ => rfl⟩

/-- Witness for C2 at a concrete call: with `image_path` supplied in inputs,
overwriting `config["image_path"]` does not change the effect handler's
output. -/
theorem C2_inputs_precedence_witness :
    EffectImage.process envW ["a.png"] [("image_path", Value.str "a.png")]
        (Dict.set [] "image_path" (Value.str "b.png")) =
      EffectImage.process envW ["a.png"] [("image_path", Value.str "a.png")] [] :=
  C2_inputs_precedence.1 envW ["a.png"] [("image_path", Value.str "a.png")] []
    (Value.str "b.png") (by decide)

/-- Counterexample for C2 as stated: AddBGM is given an existing `a.mp4`
under `video_path` in `inputs`, yet resolves the parameter from `config`
(`b.mp4`, missing) and fails — the inputs value is not preferred. -/
theorem C2_counterexample_addBGM :
    truthy (Dict.get [("video_path", Value.str "a.mp4"), ("music_path", Value.str "m.mp3")]
        "video_path") = true ∧
    pathExists ["a.mp4", "m.mp3"] "a.mp4" = true ∧
    (dispatch Handler.addBGM envW ["a.mp4", "m.mp3"]
        [("video_path", Value.str "a.mp4"), ("music_path", Value.str "m.mp3")]
        [("video_path", Value.str "b.mp4")]).result.error
      = some "Input video not found: b.mp4" :=
  ⟨by decide, by decide, by rfl⟩

theorem getD_of_get (c : Dict) (k : String) (v d : Value)
    (h : Dict.get c k = v) (hv : v ≠ Value.none) : Dict.getD c k d = v := by
  unfold Dict.get at h
  unfold Dict.getD
  cases hf : List.find? (fun kv => kv.1 == k) c
  · rw [hf] at h
    exact absurd h.symm hv
  · rw [hf] at h
    exact h

/-- C7: for the Trim handler, with an existing valid video and
`start_time = 5`, `end_time = 2` (end before start), the call returns
`{status: "error"}` and the filesystem is unchanged — no trimmed file is
produced, whatever the video's duration. -/
theorem C7_trim_end_before_start (env : Env) (st : St) (inputs config : Dict)
    (p : String) (video : Video)
    (hres : resolve inputs config "video_path" = Value.str p)
    (hex : pathExists st p = true)
    (hext : hasVideoExt p = true)
    (hstart : Dict.get config "start_time" = Value.num 5)
    (hend : Dict.get config "end_time" = Value.num 2)
    (hload : env.trimLoad p = some video) :
    (Trim.process env st inputs config).result.status = "error" ∧
    (Trim.process env st inputs config).st = st := by
  have h5 : Dict.getD config "start_time" (Value.num 0) = Value.num 5 :=
    getD_of_get config "start_time" (Value.num 5) (Value.num 0) hstart
      (fun hh => Value.noConfusion hh)
  unfold Trim.process Trim.body
  rw [h5, hend, hres]
  by_cases hp : p = ""
  · subst hp
    simp [truthy, pyFloat, runProc, Result.mkError]
  · have hcond : (5 : Rat) < 0 ∨ (if video.duration < 2 then video.duration else 2) ≤ 5 := by
      by_cases hd : video.duration < 2
      · rw [if_pos hd]
        right
        linarith
      · rw [if_neg hd]
        right
        norm_num
    simp [truthy, hp, asPath, pyFloat, hex, hext, Trim.trim_video, hload, hcond,
      finishCheck, runProc, Result.mkError]

/-- Witness for C7 at a concrete ten-second video. -/
theorem C7_trim_end_before_start_witness :
    (Trim.process envW ["v.mp4"] [("video_path", Value.str "v.mp4")]
        [("start_time", Value.num 5), ("end_time", Value.num 2)]).result.status = "error" ∧
    (Trim.process envW ["v.mp4"] [("video_path", Value.str "v.mp4")]
        [("start_time", Value.num 5), ("end_time", Value.num 2)]).st = ["v.mp4"] :=
  C7_trim_end_before_start envW ["v.mp4"] [("video_path", Value.str "v.mp4")]
    [("start_time", Value.num 5), ("end_time", Value.num 2)] "v.mp4" ⟨10⟩
    (by rfl) (by decide) (by decide) (by rfl) (by rfl) (by rfl)

theorem pathExists_cons_self (st : St) (p : String) : pathExists (p :: st) p = true := by
  simp [pathExists, List.contains]

/-- C9: for the Trim handler, an absent `end_time` or one strictly greater
than the loaded video's duration is silently replaced by the duration: for
every `start_time` with `0 ≤ start_time < duration` (and a writable output)
the call succeeds and the subclip taken runs from `start_time` to the end of
the video. -/
theorem C9_trim_end_defaults_to_duration (env : Env) (st : St) (inputs config : Dict)
    (p : String) (video : Video) (s : Rat)
    (hres : resolve inputs config "video_path" = Value.str p)
    (hp : p ≠ "")
    (hex : pathExists st p = true)
    (hext : hasVideoExt p = true)
    (hstart : Dict.get config "start_time" = Value.num s)
    (hs0 : 0 ≤ s)
    (hsd : s < video.duration)
    (hend : Dict.get config "end_time" = Value.none ∨
      ∃ e, Dict.get config "end_time" = Value.num e ∧ video.duration < e)
    (hload : env.trimLoad p = some video)
    (hwrite : ∀ outp, env.trimWrite p outp s video.duration = true) :
    (Trim.process env st inputs config).result.status = "success" ∧
    Call.mk "subclip" p s video.duration 0 ∈ (Trim.process env st inputs config).calls := by
  have hsD : Dict.getD config "start_time" (Value.num 0) = Value.num s :=
    getD_of_get config "start_time" (Value.num s) (Value.num 0) hstart
      (fun hh => Value.noConfusion hh)
  have hcond : ¬ (s < 0 ∨ video.duration ≤ s) := by
    push_neg
    exact ⟨hs0, hsd⟩
  unfold Trim.process Trim.body
  rw [hsD, hres]
  rcases hend with hendN | ⟨e, hendE, hde⟩
  · rw [hendN]
    simp [truthy, hp, asPath, pyFloat, hex, hext, Trim.trim_video, hload, hcond, hwrite,
      finishCheck, runProc, Result.mkSuccess, pathExists_cons_self]
  · rw [hendE]
    simp [truthy, hp, asPath, pyFloat, hex, hext, Trim.trim_video, hload, hde, hcond,
      hwrite, finishCheck, runProc, Result.mkSuccess, pathExists_cons_self]

/-- Witness for C9: trimming from second 3 of a ten-second video with no
`end_time` succeeds and subclips `(3, 10)`. -/
theorem C9_trim_end_defaults_to_duration_witness :
    (Trim.process envW ["v.mp4"] [("video_path", Value.str "v.mp4")]
        [("start_time", Value.num 3)]).result.status = "success" ∧
    Call.mk "subclip" "v.mp4" 3 10 0 ∈
      (Trim.process envW ["v.mp4"] [("video_path", Value.str "v.mp4")]
        [("start_time", Value.num 3)]).calls :=
  C9_trim_end_defaults_to_duration envW ["v.mp4"] [("video_path", Value.str "v.mp4")]
    [("start_time", Value.num 3)] "v.mp4" ⟨10⟩ 3
    (by rfl) (by decide) (by decide) (by decide) (by rfl) (by decide) (by decide)
    (Or.inl (by rfl)) (by rfl) (fun _ => rfl)

/-- C10: for the Watermark handler, a `subtitles_json` string that fails to
parse even after the cleanup substitutions is not an error: the subtitle list
is silently treated as empty, and (with the video loadable and the composer
succeeding) the call still returns `{status: "success"}`, the composition
having received zero subtitles. -/
theorem C10_watermark_bad_subtitles (env : Env) (st : St) (inputs config : Dict)
    (p sj : String) (video : Video) (s : Rat)
    (hres : resolve inputs config "video_path" = Value.str p)
    (hp : p ≠ "")
    (hex : pathExists st p = true)
    (hext : hasVideoExt p = true)
    (hsj : Dict.getD config "subtitles_json" (Value.str "[]") = Value.str sj)
    (hp1 : env.jsonParse (Watermark.cleanSubtitles sj) = Option.none)
    (hp2 : env.jsonParse (pyReplace sj "\\" "") = Option.none)
    (hstartD : Dict.getD config "start_time" (Value.num 0) = Value.num s)
    (hendN : Dict.get config "end_time" = Value.none)
    (hload : env.wmLoad p = some video)
    (hcomp : ∀ outp wt n a b, env.wmCompose p outp wt n a b = true) :
    Watermark.parseSubtitlesVal env (Value.str sj) = [] ∧
    (Watermark.process env st inputs config).result.status = "success" ∧
    (∃ outp, Call.mk "write_videofile" outp s video.duration 0 ∈
      (Watermark.process env st inputs config).calls) := by
  have hparse : Watermark.parseSubtitlesVal env (Value.str sj) = [] := by
    simp only [Watermark.parseSubtitlesVal]
    by_cases hx : sj ≠ "" ∧ sj ≠ "[]"
    · rw [if_pos hx, hp1, hp2]
    · rw [if_neg hx]
  refine ⟨hparse, ?_⟩
  unfold Watermark.process Watermark.body
  rw [hstartD, hendN, hres, hsj, hparse]
  simp [truthy, hp, asPath, pyFloat, hex, hext, Watermark.add_watermark, hload, hcomp,
    finishCheck, runProc, Result.mkSuccess, pathExists_cons_self]

/-- Witness for C10: a malformed subtitles payload on a valid video still
succeeds, with zero subtitles composed. -/
theorem C10_watermark_bad_subtitles_witness :
    Watermark.parseSubtitlesVal envW (Value.str "not json \\ at all") = [] ∧
    (Watermark.process envW ["v.mp4"] [("video_path", Value.str "v.mp4")]
        [("subtitles_json", Value.str "not json \\ at all")]).result.status = "success" ∧
    (∃ outp, Call.mk "write_videofile" outp 0 10 0 ∈
      (Watermark.process envW ["v.mp4"] [("video_path", Value.str "v.mp4")]
        [("subtitles_json", Value.str "not json \\ at all")]).calls) :=
  C10_watermark_bad_subtitles envW ["v.mp4"] [("video_path", Value.str "v.mp4")]
    [("subtitles_json", Value.str "not json \\ at all")] "v.mp4" "not json \\ at all" ⟨10⟩ 0
    (by rfl) (by decide) (by decide) (by decide) (by rfl) (by rfl) (by rfl) (by rfl) (by rfl)
    (by rfl) (fun _ _ _ _ _ => rfl)
